import Mathlib

/-!
# Quantization fusion patterns

A shallow embedding of `torch/csrc/jit/passes/quantization/quantization_patterns.h`:
the `QuantFusionInfo` record, the three match filters, the pattern builders and the
two catalogs `quant_fusion_pattern_and_replacements` and
`dynamic_quant_fusion_pattern_and_replacements`, followed by the properties proved
about them.

Pattern and replacement texts are the raw string literals of the source, character
for character.  A C++ exception is an `Except.error`.
-/

namespace torch.jit

/-! ## Collaborators of the header (IR values, constants, types, matches) -/

/-- Modelled from the spec: the ways a filter evaluation can fail.  `out_of_range` is
the `std::out_of_range` thrown by `unordered_map::at` on a missing key;
`internal_assert` is the assertion of `IValue::toInt` on a payload that is not an
integer. -/
inductive Failure where
  | out_of_range
  | internal_assert
  deriving DecidableEq, Repr

/-- Modelled from the spec: the semantic type tag carried by a value (tensor, integer,
float, boolean, optional, none), with `number` for `NumberType`, the common supertype
of the scalar numeric types. -/
inductive JitType where
  | tensor
  | number
  | int
  | float
  | bool
  | none
  | optional (elem : JitType)
  deriving DecidableEq, Repr

/-- Modelled from the spec: the subtype test `Type::isSubtypeOf`.  A type is a subtype
of itself, the integer and float types are subtypes of the numeric type, `none` and
every subtype of `T` are subtypes of `Optional[T]`. -/
def JitType.isSubtypeOf : JitType → JitType → Bool
  | .none, .optional _ => true
  | .optional a, .optional b => JitType.isSubtypeOf a b
  | a, .optional b => JitType.isSubtypeOf a b
  | .int, .number => true
  | .float, .number => true
  | a, b => decide (a = b)

/-- Modelled from the spec: `NumberType::get()`. -/
def NumberType.get : JitType := JitType.number

/-- Modelled from the spec: the literal payload of a constant node.  A double is kept
as its 64-bit IEEE-754 pattern. -/
inductive IValue where
  | none
  | tensor (id : Nat)
  | double (bits : Nat)
  | int (v : Int)
  | bool (b : Bool)
  | string (s : String)
  deriving DecidableEq, Repr

/-- The tag test `IValue::isInt`. -/
def IValue.isInt : IValue → Bool
  | .int _ => true
  | _ => false

/-- The accessor `IValue::toInt`, which asserts the tag. -/
def IValue.toInt : IValue → Except Failure Int
  | .int v => .ok v
  | _ => .error .internal_assert

/-- Modelled from the spec: a value of the target graph, with its type tag and, when
its producer is a constant node, the literal that node carries. -/
structure Value where
  unique : Nat
  type : JitType
  constant : Option IValue
  deriving DecidableEq, Repr

/-- Modelled from the spec: `toIValue`, the literal of a value produced by a constant
node and nothing for any other value. -/
def toIValue (v : Value) : Option IValue := v.constant

/-- A value of a pattern graph, used only as a key (the `const Value*` of the source). -/
abbrev PatternValue := Nat

/-- The symbol map of a compiled pattern: `unordered_map<string, Value*>`. -/
abbrev SymbolMap := List (String × PatternValue)

/-- Modelled from the spec: a match, reduced to the map from pattern values to target
values that the filters read. -/
structure Match where
  values_map : List (PatternValue × Value)
  deriving Repr

/-- The checked lookup `unordered_map::at`: the mapped value, or `out_of_range`. -/
def unordered_map_at {κ ν : Type} [BEq κ] (m : List (κ × ν)) (k : κ) : Except Failure ν :=
  match m.lookup k with
  | some v => .ok v
  | none => .error .out_of_range

/-! ## `QuantFusionInfo` and the pattern builders -/

/-- The type of a match filter. -/
abbrev Filter := Match → SymbolMap → Except Failure Bool

/-- The record `QuantFusionInfo`; the filter defaults to the accept-all lambda. -/
structure QuantFusionInfo where
  quantized_op_name : String
  pattern : String
  replacement : String
  filter : Filter := fun _ _ => .ok true

/-- The helper `getExtraArgList`: `std::accumulate` over the extra arguments. -/
def getExtraArgList (extra_args : List String) : String :=
  extra_args.foldl (fun acc arg => acc ++ ", " ++ arg) ""

/-- The helper `getAtenOpPattern`: the text the match is replaced with. -/
def getAtenOpPattern (graph_header op_name extra_arg_list : String) : String :=
  let aten_op_pattern := graph_header
  let aten_op_pattern := aten_op_pattern ++ "
          %r = "
  let aten_op_pattern := aten_op_pattern ++ (op_name ++ "(" ++ "%a_quant" ++ extra_arg_list ++ ")")
  let aten_op_pattern := aten_op_pattern ++ "
          return (%r) "
  aten_op_pattern

/-- Patterns for the ops that inherit their quantization parameters from the input. -/
def getInputTensorQParamOpFusionInfo (op_name : String) (extra_args : List String) :
    QuantFusionInfo :=
  let extra_arg_list := getExtraArgList extra_args
  let graph_header := "graph(%a_quant" ++ extra_arg_list ++ "):"
  let op_pattern := graph_header
  let op_pattern := op_pattern ++ "
          %a_dequant = aten::dequantize(%a_quant)
          %r = "
  let op_pattern := op_pattern ++ (op_name ++ "(" ++ "%a_dequant" ++ extra_arg_list ++ ")")
  let op_pattern := op_pattern ++ "
          %r_scale : float = aten::q_scale(%a_quant)
          %r_zero_point : int = aten::q_zero_point(%a_quant)
          %r_dtype : int = prim::dtype(%a_quant)
          %r_quant = aten::quantize_per_tensor(%r, %r_scale, %r_zero_point, %r_dtype)
          return (%r_quant) "
  let aten_op_pattern := getAtenOpPattern graph_header op_name extra_arg_list
  { quantized_op_name := op_name, pattern := op_pattern, replacement := aten_op_pattern }

/-- Patterns for the ops that have fixed quantization parameters. -/
def getFixedQParamOpFusionInfo (op_name : String) (extra_args : List String)
    (is_symmetric : Bool) : QuantFusionInfo :=
  let extra_arg_list := getExtraArgList extra_args
  let graph_header := "graph(%a_quant" ++ extra_arg_list ++ "):"
  let op_pattern := graph_header
  let op_pattern := op_pattern ++ "
          %a_dequant = aten::dequantize(%a_quant)
          %r = "
  let op_pattern := op_pattern ++ (op_name ++ "(" ++ "%a_dequant" ++ extra_arg_list ++ ")")
  let asym_fixed_qparam_op_suffix := "
          %r_scale : float = prim::Constant[value=0.00390625]()
          %r_zero_point : int = prim::Constant[value=0]()
          %r_dtype : int = prim::Constant[value=13]()
          %r_quant = aten::quantize_per_tensor(%r, %r_scale, %r_zero_point, %r_dtype)
          return (%r_quant) "
  let sym_fixed_qparam_op_suffix := "
          %r_scale : float = prim::Constant[value=0.0078125]()
          %r_zero_point : int = prim::Constant[value=128]()
          %r_dtype : int = prim::Constant[value=13]()
          %r_quant = aten::quantize_per_tensor(%r, %r_scale, %r_zero_point, %r_dtype)
          return (%r_quant) "
  let op_pattern := op_pattern ++
    (if is_symmetric then sym_fixed_qparam_op_suffix else asym_fixed_qparam_op_suffix)
  let aten_op_pattern := getAtenOpPattern graph_header op_name extra_arg_list
  { quantized_op_name := op_name, pattern := op_pattern, replacement := aten_op_pattern }

/-! ## The match filters -/

/-- The filter `add_filter`: `%alpha` is the constant integer 1. -/
def add_filter : Filter := fun m vmap => do
  let match_vmap := m.values_map
  let alpha := toIValue (← unordered_map_at match_vmap (← unordered_map_at vmap "alpha"))
  match alpha with
  | none => pure false
  | some a =>
    if a.isInt then do
      let n ← a.toInt
      pure (n == 1)
    else pure false

/-- The filter `add_scalar_filter`: `%alpha` is the constant integer 1 and `%b_scalar`
is a scalar. -/
def add_scalar_filter : Filter := fun m vmap => do
  let match_vmap := m.values_map
  let alpha := toIValue (← unordered_map_at match_vmap (← unordered_map_at vmap "alpha"))
  let b_scalar ← unordered_map_at match_vmap (← unordered_map_at vmap "b_scalar")
  match alpha with
  | none => pure false
  | some a =>
    if a.isInt then do
      let n ← a.toInt
      if n == 1 then pure (b_scalar.type.isSubtypeOf NumberType.get) else pure false
    else pure false

/-- The filter `mul_scalar_filter`: `%b_scalar` is a scalar. -/
def mul_scalar_filter : Filter := fun m vmap => do
  let match_vmap := m.values_map
  let b_scalar ← unordered_map_at match_vmap (← unordered_map_at vmap "b_scalar")
  pure (b_scalar.type.isSubtypeOf NumberType.get)

/-! ## The pattern and replacement texts of `quant_fusion_pattern_and_replacements` -/

namespace quant_fusion_pattern_and_replacements

def conv1d : String := "
graph(%a_quant, %packed_params, %r_scale, %r_zero_point, %r_dtype, %stride, %padding, %dilation, %groups):
        %a_dequant = aten::dequantize(%a_quant)
        %w_quant : Tensor, %b : Tensor? = quantized::conv1d_unpack(%packed_params)
        %w_dequant = aten::dequantize(%w_quant)
        %r = aten::conv1d(%a_dequant, %w_dequant, %b, %stride, %padding, %dilation, %groups)
        %r_quant = aten::quantize_per_tensor(%r, %r_scale, %r_zero_point, %r_dtype)
        return (%r_quant) "

def conv1d_relu : String := "
graph(%a_quant, %packed_params, %r_scale, %r_zero_point, %r_dtype, %stride, %padding, %dilation, %groups):
        %a_dequant = aten::dequantize(%a_quant)
        %w_quant : Tensor, %b : Tensor? = quantized::conv1d_unpack(%packed_params)
        %w_dequant = aten::dequantize(%w_quant)
        %conv_out = aten::conv1d(%a_dequant, %w_dequant, %b, %stride, %padding, %dilation, %groups)
        %r = aten::relu(%conv_out)
        %r_quant = aten::quantize_per_tensor(%r, %r_scale, %r_zero_point, %r_dtype)
        return (%r_quant) "

def conv1d_inplace_relu : String := "
graph(%a_quant, %packed_params, %r_scale, %r_zero_point, %r_dtype, %stride, %padding, %dilation, %groups):
        %a_dequant = aten::dequantize(%a_quant)
        %w_quant : Tensor, %b : Tensor? = quantized::conv1d_unpack(%packed_params)
        %w_dequant = aten::dequantize(%w_quant)
        %conv_out = aten::conv1d(%a_dequant, %w_dequant, %b, %stride, %padding, %dilation, %groups)
        %r = aten::relu_(%conv_out)
        %r_quant = aten::quantize_per_tensor(%r, %r_scale, %r_zero_point, %r_dtype)
        return (%r_quant) "

def quantized_conv1d : String := "
graph(%a_quant, %packed_params, %r_scale, %r_zero_point, %r_dtype, %stride, %padding, %dilation, %groups):
        %r_quant = quantized::conv1d(%a_quant, %packed_params, %r_scale, %r_zero_point)
        return (%r_quant) "

def quantized_conv1d_relu : String := "
graph(%a_quant, %packed_params, %r_scale, %r_zero_point, %r_dtype, %stride, %padding, %dilation, %groups):
        %r_quant = quantized::conv1d_relu(%a_quant, %packed_params, %r_scale, %r_zero_point)
        return (%r_quant) "

def conv2d : String := "
graph(%a_quant, %packed_params, %r_scale, %r_zero_point, %r_dtype, %stride, %padding, %dilation, %groups):
        %a_dequant = aten::dequantize(%a_quant)
        %w_quant : Tensor, %b : Tensor? = quantized::conv2d_unpack(%packed_params)
        %w_dequant = aten::dequantize(%w_quant)
        %r = aten::conv2d(%a_dequant, %w_dequant, %b, %stride, %padding, %dilation, %groups)
        %r_quant = aten::quantize_per_tensor(%r, %r_scale, %r_zero_point, %r_dtype)
        return (%r_quant) "

def conv2d_relu : String := "
graph(%a_quant, %packed_params, %r_scale, %r_zero_point, %r_dtype, %stride, %padding, %dilation, %groups):
        %a_dequant = aten::dequantize(%a_quant)
        %w_quant : Tensor, %b : Tensor? = quantized::conv2d_unpack(%packed_params)
        %w_dequant = aten::dequantize(%w_quant)
        %conv_out = aten::conv2d(%a_dequant, %w_dequant, %b, %stride, %padding, %dilation, %groups)
        %r = aten::relu(%conv_out)
        %r_quant = aten::quantize_per_tensor(%r, %r_scale, %r_zero_point, %r_dtype)
        return (%r_quant) "

def conv2d_inplace_relu : String := "
graph(%a_quant, %packed_params, %r_scale, %r_zero_point, %r_dtype, %stride, %padding, %dilation, %groups):
        %a_dequant = aten::dequantize(%a_quant)
        %w_quant : Tensor, %b : Tensor? = quantized::conv2d_unpack(%packed_params)
        %w_dequant = aten::dequantize(%w_quant)
        %conv_out = aten::conv2d(%a_dequant, %w_dequant, %b, %stride, %padding, %dilation, %groups)
        %r = aten::relu_(%conv_out)
        %r_quant = aten::quantize_per_tensor(%r, %r_scale, %r_zero_point, %r_dtype)
        return (%r_quant) "

def quantized_conv2d : String := "
graph(%a_quant, %packed_params, %r_scale, %r_zero_point, %r_dtype, %stride, %padding, %dilation, %groups):
        %r_quant = quantized::conv2d(%a_quant, %packed_params, %r_scale, %r_zero_point)
        return (%r_quant) "

def quantized_conv2d_relu : String := "
graph(%a_quant, %packed_params, %r_scale, %r_zero_point, %r_dtype, %stride, %padding, %dilation, %groups):
        %r_quant = quantized::conv2d_relu(%a_quant, %packed_params, %r_scale, %r_zero_point)
        return (%r_quant) "

def conv3d : String := "
graph(%a_quant, %packed_params, %r_scale, %r_zero_point, %r_dtype, %stride, %padding, %dilation, %groups):
        %a_dequant = aten::dequantize(%a_quant)
        %w_quant : Tensor, %b : Tensor? = quantized::conv3d_unpack(%packed_params)
        %w_dequant = aten::dequantize(%w_quant)
        %r = aten::conv3d(%a_dequant, %w_dequant, %b, %stride, %padding, %dilation, %groups)
        %r_quant = aten::quantize_per_tensor(%r, %r_scale, %r_zero_point, %r_dtype)
        return (%r_quant) "

def conv3d_relu : String := "
graph(%a_quant, %packed_params, %r_scale, %r_zero_point, %r_dtype, %stride, %padding, %dilation, %groups):
        %a_dequant = aten::dequantize(%a_quant)
        %w_quant : Tensor, %b : Tensor? = quantized::conv3d_unpack(%packed_params)
        %w_dequant = aten::dequantize(%w_quant)
        %conv_out = aten::conv3d(%a_dequant, %w_dequant, %b, %stride, %padding, %dilation, %groups)
        %r = aten::relu(%conv_out)
        %r_quant = aten::quantize_per_tensor(%r, %r_scale, %r_zero_point, %r_dtype)
        return (%r_quant) "

def conv3d_inplace_relu : String := "
graph(%a_quant, %packed_params, %r_scale, %r_zero_point, %r_dtype, %stride, %padding, %dilation, %groups):
        %a_dequant = aten::dequantize(%a_quant)
        %w_quant : Tensor, %b : Tensor? = quantized::conv3d_unpack(%packed_params)
        %w_dequant = aten::dequantize(%w_quant)
        %conv_out = aten::conv3d(%a_dequant, %w_dequant, %b, %stride, %padding, %dilation, %groups)
        %r = aten::relu_(%conv_out)
        %r_quant = aten::quantize_per_tensor(%r, %r_scale, %r_zero_point, %r_dtype)
        return (%r_quant) "

def quantized_conv3d : String := "
graph(%a_quant, %packed_params, %r_scale, %r_zero_point, %r_dtype, %stride, %padding, %dilation, %groups):
        %r_quant = quantized::conv3d(%a_quant, %packed_params, %r_scale, %r_zero_point)
        return (%r_quant) "

def quantized_conv3d_relu : String := "
graph(%a_quant, %packed_params, %r_scale, %r_zero_point, %r_dtype, %stride, %padding, %dilation, %groups):
        %r_quant = quantized::conv3d_relu(%a_quant, %packed_params, %r_scale, %r_zero_point)
        return (%r_quant) "

def add_relu : String := "
graph(%a_quant, %b_quant, %scale, %zero_point, %dtype):
         %alpha = prim::Constant[value=1]()
         %a_dequant = aten::dequantize(%a_quant)
         %b_dequant = aten::dequantize(%b_quant)
         %r_add = aten::add(%a_dequant, %b_dequant, %alpha)
         %r_relu = aten::relu(%r_add)
         %r = aten::quantize_per_tensor(%r_relu, %scale, %zero_point, %dtype)
         return (%r) "

def add_inplace_relu : String := "
graph(%a_quant, %b_quant, %scale, %zero_point, %dtype):
         %alpha = prim::Constant[value=1]()
         %a_dequant = aten::dequantize(%a_quant)
         %b_dequant = aten::dequantize(%b_quant)
         %r_add = aten::add(%a_dequant, %b_dequant, %alpha)
         %r_relu = aten::relu_(%r_add)
         %r = aten::quantize_per_tensor(%r_relu, %scale, %zero_point, %dtype)
         return (%r) "

def inplace_add_relu : String := "
graph(%a_quant, %b_quant, %scale, %zero_point, %dtype):
         %alpha = prim::Constant[value=1]()
         %a_dequant = aten::dequantize(%a_quant)
         %b_dequant = aten::dequantize(%b_quant)
         %r_add = aten::add_(%a_dequant, %b_dequant, %alpha)
         %r_relu = aten::relu(%r_add)
         %r = aten::quantize_per_tensor(%r_relu, %scale, %zero_point, %dtype)
         return (%r) "

def inplace_add_inplace_relu : String := "
graph(%a_quant, %b_quant, %scale, %zero_point, %dtype):
         %alpha = prim::Constant[value=1]()
         %a_dequant = aten::dequantize(%a_quant)
         %b_dequant = aten::dequantize(%b_quant)
         %r_add = aten::add_(%a_dequant, %b_dequant, %alpha)
         %r_relu = aten::relu_(%r_add)
         %r = aten::quantize_per_tensor(%r_relu, %scale, %zero_point, %dtype)
         return (%r) "

def quantized_add_relu : String := "
graph(%a_quant, %b_quant, %scale, %zero_point, %dtype):
         %r = quantized::add_relu(%a_quant, %b_quant, %scale, %zero_point)
         return (%r) "

def linear : String := "
graph(%packed_params, %a_quant, %r_scale, %r_zero_point, %r_dtype):
        %a_dequant = aten::dequantize(%a_quant)
        %w_quant : Tensor, %b : Tensor? = quantized::linear_unpack(%packed_params)
        %w_dequant = aten::dequantize(%w_quant)
        %r = aten::linear(%a_dequant, %w_dequant, %b)
        %r_quant = aten::quantize_per_tensor(%r, %r_scale, %r_zero_point, %r_dtype)
        return (%r_quant) "

def quantized_linear : String := "
graph(%packed_params, %a_quant, %r_scale, %r_zero_point, %r_dtype):
        %r = quantized::linear(%a_quant, %packed_params, %r_scale, %r_zero_point)
        return (%r) "

def cat : String := "
graph(%input_quant, %dim, %r_scale, %r_zero_point, %r_dtype):
        %input_dequant = aten::dequantize(%input_quant)
        %r = aten::cat(%input_dequant, %dim)
        %r_quant = aten::quantize_per_tensor(%r, %r_scale, %r_zero_point, %r_dtype)
        return (%r_quant) "

def quantized_cat : String := "
graph(%input_quant, %dim, %r_scale, %r_zero_point, %r_dtype):
         %r_quant = quantized::cat(%input_quant, %dim, %r_scale, %r_zero_point)
         return (%r_quant) "

def add : String := "
graph(%a_quant, %b_quant, %alpha, %scale, %zero_point, %dtype):
         %a_dequant = aten::dequantize(%a_quant)
         %b_dequant = aten::dequantize(%b_quant)
         %r_add = aten::add(%a_dequant, %b_dequant, %alpha)
         %r = aten::quantize_per_tensor(%r_add, %scale, %zero_point, %dtype)
         return (%r) "

def quantized_add : String := "
graph(%a_quant, %b_quant, %alpha, %scale, %zero_point, %dtype):
         %r = quantized::add(%a_quant, %b_quant, %scale, %zero_point)
         return (%r) "

def inplace_add : String := "
graph(%a_quant, %b_quant, %alpha, %scale, %zero_point, %dtype):
         %a_dequant = aten::dequantize(%a_quant)
         %b_dequant = aten::dequantize(%b_quant)
         %r_add = aten::add_(%a_dequant, %b_dequant, %alpha)
         %r = aten::quantize_per_tensor(%r_add, %scale, %zero_point, %dtype)
         return (%r) "

def add_scalar : String := "
graph(%a_quant, %b_scalar, %alpha):
         %a_dequant = aten::dequantize(%a_quant)
         %r = aten::add(%a_dequant, %b_scalar, %alpha)
         return (%r) "

def quantized_add_scalar : String := "
graph(%a_quant, %b_scalar, %alpha):
         %r = quantized::add_scalar(%a_quant, %b_scalar)
         return (%r) "

def inplace_add_scalar : String := "
graph(%a_quant, %b_scalar, %alpha):
         %a_dequant = aten::dequantize(%a_quant)
         %r = aten::add_(%a_dequant, %b_scalar, %alpha)
         return (%r) "

def quantized_add_scalar_out : String := "
graph(%a_quant, %b_scalar, %alpha):
         %r = quantized::add_scalar_out(%a_quant, %b_scalar, %a_quant)
         return (%r) "

def add_scalar_relu : String := "
graph(%a_quant, %b_scalar, %alpha):
         %a_dequant = aten::dequantize(%a_quant)
         %r_add = aten::add(%a_dequant, %b_scalar, %alpha)
         %r = aten::relu(%r_add)
         return (%r) "

def add_scalar_inplace_relu : String := "
graph(%a_quant, %b_scalar, %alpha):
         %a_dequant = aten::dequantize(%a_quant)
         %r_add = aten::add(%a_dequant, %b_scalar, %alpha)
         %r = aten::relu_(%r_add)
         return (%r) "

def quantized_add_scalar_relu : String := "
graph(%a_quant, %b_scalar, %alpha):
         %r = quantized::add_scalar_relu(%a_quant, %b_scalar)
         return (%r) "

def inplace_add_scalar_relu : String := "
graph(%a_quant, %b_scalar, %alpha):
         %a_dequant = aten::dequantize(%a_quant)
         %r_add = aten::add_(%a_dequant, %b_scalar, %alpha)
         %r = aten::relu(%r_add)
         return (%r) "

def inplace_add_scalar_inplace_relu : String := "
graph(%a_quant, %b_scalar, %alpha):
         %a_dequant = aten::dequantize(%a_quant)
         %r_add = aten::add_(%a_dequant, %b_scalar, %alpha)
         %r = aten::relu_(%r_add)
         return (%r) "

def quantized_add_scalar_relu_out : String := "
graph(%a_quant, %b_scalar, %alpha):
         %r = quantized::add_scalar_relu_out(%a_quant, %b_scalar, %a_quant)
         return (%r) "

def batch_norm2d : String := "
graph(%a_quant, %weight, %bias, %mean, %var, %training, %eaf, %eps, %7, %scale, %zero_point, %scalar_type):
         %a_dequant = aten::dequantize(%a_quant)
         %r_bn = aten::batch_norm(%a_dequant, %weight, %bias, %mean, %var, %training, %eaf, %eps, %7)
         %r = aten::quantize_per_tensor(%r_bn, %scale, %zero_point, %scalar_type)
         return (%r) "

def quantized_batch_norm2d : String := "
graph(%a_quant, %weight, %bias, %mean, %var, %training, %eaf, %eps, %7, %scale, %zero_point, %scalar_type):
         %r = quantized::batch_norm2d(%a_quant, %weight, %bias, %mean, %var, %eps, %scale, %zero_point)
         return (%r) "

def batch_norm2d_relu : String := "
graph(%a_quant, %weight, %bias, %mean, %var, %training, %eaf, %eps, %7, %scale, %zero_point, %scalar_type):
         %a_dequant = aten::dequantize(%a_quant)
         %bn_out = aten::batch_norm(%a_dequant, %weight, %bias, %mean, %var, %training, %eaf, %eps, %7)
         %relu = aten::relu(%bn_out)
         %r = aten::quantize_per_tensor(%relu, %scale, %zero_point, %scalar_type)
         return (%r) "

def batch_norm2d_inplace_relu : String := "
graph(%a_quant, %weight, %bias, %mean, %var, %training, %eaf, %eps, %7, %scale, %zero_point, %scalar_type):
         %a_dequant = aten::dequantize(%a_quant)
         %bn_out = aten::batch_norm(%a_dequant, %weight, %bias, %mean, %var, %training, %eaf, %eps, %7)
         %relu = aten::relu_(%bn_out)
         %r = aten::quantize_per_tensor(%relu, %scale, %zero_point, %scalar_type)
         return (%r) "

def quantized_batch_norm2d_relu : String := "
graph(%a_quant, %weight, %bias, %mean, %var, %training, %eaf, %eps, %7, %scale, %zero_point, %scalar_type):
         %r = quantized::batch_norm2d_relu(%a_quant, %weight, %bias, %mean, %var, %eps, %scale, %zero_point)
         return (%r) "

def mul : String := "
graph(%a_quant, %b_quant, %scale, %zero_point, %dtype):
         %a_dequant = aten::dequantize(%a_quant)
         %b_dequant = aten::dequantize(%b_quant)
         %r_mul = aten::mul(%a_dequant, %b_dequant)
         %r = aten::quantize_per_tensor(%r_mul, %scale, %zero_point, %dtype)
         return (%r) "

def inplace_mul : String := "
graph(%a_quant, %b_quant, %scale, %zero_point, %dtype):
         %a_dequant = aten::dequantize(%a_quant)
         %b_dequant = aten::dequantize(%b_quant)
         %r_mul = aten::mul_(%a_dequant, %b_dequant)
         %r = aten::quantize_per_tensor(%r_mul, %scale, %zero_point, %dtype)
         return (%r) "

def quantized_mul : String := "
graph(%a_quant, %b_quant, %scale, %zero_point, %dtype):
         %r = quantized::mul(%a_quant, %b_quant, %scale, %zero_point)
         return (%r) "

def mul_scalar : String := "
graph(%a_quant, %b_scalar):
         %a_dequant = aten::dequantize(%a_quant)
         %r = aten::mul(%a_dequant, %b_scalar)
         return (%r) "

def inplace_mul_scalar : String := "
graph(%a_quant, %b_scalar):
         %a_dequant = aten::dequantize(%a_quant)
         %r = aten::mul_(%a_dequant, %b_scalar)
         return (%r) "

def quantized_mul_scalar : String := "
graph(%a_quant, %b_scalar):
         %r = quantized::mul_scalar(%a_quant, %b_scalar)
         return (%r) "

def quantized_mul_scalar_out : String := "
graph(%a_quant, %b_scalar):
         %r = quantized::mul_scalar_out(%a_quant, %b_scalar, %a_quant)
         return (%r) "

def mul_relu : String := "
graph(%a_quant, %b_quant, %scale, %zero_point, %dtype):
         %a_dequant = aten::dequantize(%a_quant)
         %b_dequant = aten::dequantize(%b_quant)
         %r_mul = aten::mul(%a_dequant, %b_dequant)
         %r_relu = aten::relu(%r_mul)
         %r = aten::quantize_per_tensor(%r_relu, %scale, %zero_point, %dtype)
         return (%r) "

def mul_inplace_relu : String := "
graph(%a_quant, %b_quant, %scale, %zero_point, %dtype):
         %a_dequant = aten::dequantize(%a_quant)
         %b_dequant = aten::dequantize(%b_quant)
         %r_mul = aten::mul(%a_dequant, %b_dequant)
         %r_relu = aten::relu_(%r_mul)
         %r = aten::quantize_per_tensor(%r_relu, %scale, %zero_point, %dtype)
         return (%r) "

def inplace_mul_relu : String := "
graph(%a_quant, %b_quant, %scale, %zero_point, %dtype):
         %a_dequant = aten::dequantize(%a_quant)
         %b_dequant = aten::dequantize(%b_quant)
         %r_mul = aten::mul_(%a_dequant, %b_dequant)
         %r_relu = aten::relu(%r_mul)
         %r = aten::quantize_per_tensor(%r_relu, %scale, %zero_point, %dtype)
         return (%r) "

def inplace_mul_inplace_relu : String := "
graph(%a_quant, %b_quant, %scale, %zero_point, %dtype):
         %a_dequant = aten::dequantize(%a_quant)
         %b_dequant = aten::dequantize(%b_quant)
         %r_mul = aten::mul_(%a_dequant, %b_dequant)
         %r_relu = aten::relu_(%r_mul)
         %r = aten::quantize_per_tensor(%r_relu, %scale, %zero_point, %dtype)
         return (%r) "

def quantized_mul_relu : String := "
graph(%a_quant, %b_quant, %scale, %zero_point, %dtype):
         %r = quantized::mul_relu(%a_quant, %b_quant, %scale, %zero_point)
         return (%r) "

def mul_scalar_relu : String := "
graph(%a_quant, %b_scalar):
         %a_dequant = aten::dequantize(%a_quant)
         %r_mul = aten::mul(%a_dequant, %b_scalar)
         %r = aten::relu(%r_mul)
         return (%r) "

def mul_scalar_inplace_relu : String := "
graph(%a_quant, %b_scalar):
         %a_dequant = aten::dequantize(%a_quant)
         %r_mul = aten::mul(%a_dequant, %b_scalar)
         %r = aten::relu_(%r_mul)
         return (%r) "

def quantized_mul_scalar_relu : String := "
graph(%a_quant, %b_scalar):
         %r = quantized::mul_scalar_relu(%a_quant, %b_scalar)
         return (%r) "

def inplace_mul_scalar_relu : String := "
graph(%a_quant, %b_scalar):
         %a_dequant = aten::dequantize(%a_quant)
         %r_mul = aten::mul_(%a_dequant, %b_scalar)
         %r = aten::relu(%r_mul)
         return (%r) "

def inplace_mul_scalar_inplace_relu : String := "
graph(%a_quant, %b_scalar):
         %a_dequant = aten::dequantize(%a_quant)
         %r_mul = aten::mul_(%a_dequant, %b_scalar)
         %r = aten::relu_(%r_mul)
         return (%r) "

def quantized_mul_scalar_relu_out : String := "
graph(%a_quant, %b_scalar):
         %r = quantized::mul_scalar_relu_out(%a_quant, %b_scalar, %a_quant)
         return (%r) "

def hardswish : String := "
graph(%a_quant, %r_scale, %r_zero_point, %r_dtype):
         %a_dequant = aten::dequantize(%a_quant)
         %r = aten::hardswish(%a_dequant)
         %r_quant = aten::quantize_per_tensor(%r, %r_scale, %r_zero_point, %r_dtype)
         return (%r_quant) "

def quantized_hardswish : String := "
graph(%a_quant, %r_scale, %r_zero_point, %r_dtype):
         %r_quant = quantized::hardswish(%a_quant, %r_scale, %r_zero_point)
         return (%r_quant) "

def layer_norm : String := "
graph(%a_quant, %normalized_shape, %weight, %bias, %eps, %cudnn_enabled, %output_scale, %output_zero_point, %scalar_type):
         %a_dequant = aten::dequantize(%a_quant)
         %r_ln = aten::layer_norm(%a_dequant, %normalized_shape, %weight, %bias, %eps, %cudnn_enabled)
         %r = aten::quantize_per_tensor(%r_ln, %output_scale, %output_zero_point, %scalar_type)
         return (%r) "

def quantized_layer_norm : String := "
graph(%a_quant, %normalized_shape, %weight, %bias, %eps, %cudnn_enabled, %output_scale, %output_zero_point, %scalar_type):
         %r = quantized::layer_norm(%a_quant, %normalized_shape, %weight, %bias, %eps, %output_scale, %output_zero_point)
         return (%r) "

def common_general_value_op : String := "
          %r_scale : float = aten::q_scale(%a_quant)
          %r_zero_point : int = aten::q_zero_point(%a_quant)
          %r_dtype : int = prim::dtype(%a_quant)
          %r_quant = aten::quantize_per_tensor(%r, %r_scale, %r_zero_point, %r_dtype)
          return (%r_quant) "

def avg_pool1d : QuantFusionInfo :=
  getInputTensorQParamOpFusionInfo "aten::avg_pool1d" ["%kernel_size", "%stride", "%padding", "%ceil_mode", "%count_include_pad"]

def avg_pool2d : QuantFusionInfo :=
  getInputTensorQParamOpFusionInfo "aten::avg_pool2d" ["%kernel_size", "%stride", "%padding", "%ceil_mode", "%count_include_pad", "%divisor_override"]

def avg_pool3d : QuantFusionInfo :=
  getInputTensorQParamOpFusionInfo "aten::avg_pool3d" ["%kernel_size", "%stride", "%padding", "%ceil_mode", "%count_include_pad", "%divisor_override"]

def adaptive_avg_pool1d : QuantFusionInfo :=
  getInputTensorQParamOpFusionInfo "aten::adaptive_avg_pool1d" ["%output_size"]

def adaptive_avg_pool2d : QuantFusionInfo :=
  getInputTensorQParamOpFusionInfo "aten::adaptive_avg_pool2d" ["%output_size"]

def adaptive_avg_pool3d : QuantFusionInfo :=
  getInputTensorQParamOpFusionInfo "aten::adaptive_avg_pool3d" ["%output_size"]

def mean : QuantFusionInfo :=
  getInputTensorQParamOpFusionInfo "aten::mean" ["%dim"]

def upsample_nearest1d : QuantFusionInfo :=
  getInputTensorQParamOpFusionInfo "aten::upsample_nearest1d" ["%output_size", "%scales"]

def upsample_nearest2d : QuantFusionInfo :=
  getInputTensorQParamOpFusionInfo "aten::upsample_nearest2d" ["%output_size", "%scale_h", "%scale_w"]

def upsample_nearest3d : QuantFusionInfo :=
  getInputTensorQParamOpFusionInfo "aten::upsample_nearest3d" ["%output_size", "%scale_d", "%scale_h", "%scale_w"]

def upsample_linear1d : QuantFusionInfo :=
  getInputTensorQParamOpFusionInfo "aten::upsample_linear1d" ["%output_size", "%align_corners", "%scales"]

def upsample_bilinear2d : QuantFusionInfo :=
  getInputTensorQParamOpFusionInfo "aten::upsample_bilinear2d" ["%output_size", "%align_corners", "%scale_h", "%scale_w"]

def upsample_trilinear3d : QuantFusionInfo :=
  getInputTensorQParamOpFusionInfo "aten::upsample_trilinear3d" ["%output_size", "%align_corners", "%scale_d", "%scale_h", "%scale_w"]

def clamp : QuantFusionInfo :=
  getInputTensorQParamOpFusionInfo "aten::clamp" ["%min", "%max"]

def clamp_ : QuantFusionInfo :=
  getInputTensorQParamOpFusionInfo "aten::clamp_" ["%min", "%max"]

def hardtanh : QuantFusionInfo :=
  getInputTensorQParamOpFusionInfo "aten::hardtanh" ["%min", "%max"]

def hardtanh_ : QuantFusionInfo :=
  getInputTensorQParamOpFusionInfo "aten::hardtanh_" ["%min", "%max"]

def elu : QuantFusionInfo :=
  getInputTensorQParamOpFusionInfo "aten::elu" ["%alpha", "%scale", "%input_scale"]

def elu_ : QuantFusionInfo :=
  getInputTensorQParamOpFusionInfo "aten::elu_" ["%alpha", "%scale", "%input_scale"]

def leaky_relu : QuantFusionInfo :=
  getInputTensorQParamOpFusionInfo "aten::leaky_relu" ["%negative_slope"]

def leaky_relu_ : QuantFusionInfo :=
  getInputTensorQParamOpFusionInfo "aten::leaky_relu_" ["%negative_slope"]

def hardsigmoid : QuantFusionInfo :=
  getFixedQParamOpFusionInfo "aten::hardsigmoid" [] false

def hardsigmoid_ : QuantFusionInfo :=
  getFixedQParamOpFusionInfo "aten::hardsigmoid_" [] false

def sigmoid : QuantFusionInfo :=
  getFixedQParamOpFusionInfo "aten::sigmoid" [] false

def sigmoid_ : QuantFusionInfo :=
  getFixedQParamOpFusionInfo "aten::sigmoid_" [] false

def tanh : QuantFusionInfo :=
  getFixedQParamOpFusionInfo "aten::tanh" [] true

def tanh_ : QuantFusionInfo :=
  getFixedQParamOpFusionInfo "aten::tanh_" [] true

end quant_fusion_pattern_and_replacements

open quant_fusion_pattern_and_replacements in
/-- The catalog `quant_fusion_pattern_and_replacements()`, in the order of the source. -/
def quant_fusion_pattern_and_replacements : List QuantFusionInfo :=
  [
    { quantized_op_name := "quantized::conv1d", pattern := conv1d, replacement := quantized_conv1d },
    { quantized_op_name := "quantized::conv1d_relu", pattern := conv1d_relu, replacement := quantized_conv1d_relu },
    { quantized_op_name := "quantized::conv1d_relu", pattern := conv1d_inplace_relu, replacement := quantized_conv1d_relu },
    { quantized_op_name := "quantized::conv2d", pattern := conv2d, replacement := quantized_conv2d },
    { quantized_op_name := "quantized::conv2d_relu", pattern := conv2d_relu, replacement := quantized_conv2d_relu },
    { quantized_op_name := "quantized::conv2d_relu", pattern := conv2d_inplace_relu, replacement := quantized_conv2d_relu },
    { quantized_op_name := "quantized::conv3d", pattern := conv3d, replacement := quantized_conv3d },
    { quantized_op_name := "quantized::conv3d_relu", pattern := conv3d_relu, replacement := quantized_conv3d_relu },
    { quantized_op_name := "quantized::conv3d_relu", pattern := conv3d_inplace_relu, replacement := quantized_conv3d_relu },
    { quantized_op_name := "quantized::linear", pattern := linear, replacement := quantized_linear },
    { quantized_op_name := "quantized::add_relu", pattern := add_relu, replacement := quantized_add_relu,
      filter := add_filter },
    { quantized_op_name := "quantized::add_relu", pattern := add_inplace_relu, replacement := quantized_add_relu,
      filter := add_filter },
    { quantized_op_name := "quantized::add_relu", pattern := inplace_add_relu, replacement := quantized_add_relu,
      filter := add_filter },
    { quantized_op_name := "quantized::add_relu", pattern := inplace_add_inplace_relu, replacement := quantized_add_relu,
      filter := add_filter },
    { quantized_op_name := "quantized::add_scalar_relu", pattern := add_scalar_relu, replacement := quantized_add_scalar_relu,
      filter := add_scalar_filter },
    { quantized_op_name := "quantized::add_scalar_relu", pattern := add_scalar_inplace_relu, replacement := quantized_add_scalar_relu,
      filter := add_scalar_filter },
    { quantized_op_name := "quantized::add_scalar_relu_out", pattern := inplace_add_scalar_relu, replacement := quantized_add_scalar_relu_out,
      filter := add_scalar_filter },
    { quantized_op_name := "quantized::add_scalar_relu_out", pattern := inplace_add_scalar_inplace_relu, replacement := quantized_add_scalar_relu_out,
      filter := add_scalar_filter },
    { quantized_op_name := "quantized::add_scalar", pattern := add_scalar, replacement := quantized_add_scalar,
      filter := add_scalar_filter },
    { quantized_op_name := "quantized::add_scalar_out", pattern := inplace_add_scalar, replacement := quantized_add_scalar_out,
      filter := add_scalar_filter },
    { quantized_op_name := "quantized::add", pattern := add, replacement := quantized_add,
      filter := add_filter },
    { quantized_op_name := "quantized::add", pattern := inplace_add, replacement := quantized_add,
      filter := add_filter },
    { quantized_op_name := "quantized::cat", pattern := cat, replacement := quantized_cat },
    { quantized_op_name := "quantized::batch_norm2d", pattern := batch_norm2d, replacement := quantized_batch_norm2d },
    { quantized_op_name := "quantized::batch_norm2d_relu", pattern := batch_norm2d_relu, replacement := quantized_batch_norm2d_relu },
    { quantized_op_name := "quantized::batch_norm2d_relu", pattern := batch_norm2d_inplace_relu, replacement := quantized_batch_norm2d_relu },
    { quantized_op_name := "quantized::mul_scalar_relu", pattern := mul_scalar_relu, replacement := quantized_mul_scalar_relu,
      filter := mul_scalar_filter },
    { quantized_op_name := "quantized::mul_scalar_relu", pattern := mul_scalar_inplace_relu, replacement := quantized_mul_scalar_relu,
      filter := mul_scalar_filter },
    { quantized_op_name := "quantized::mul_scalar_relu_out", pattern := inplace_mul_scalar_relu, replacement := quantized_mul_scalar_relu_out,
      filter := mul_scalar_filter },
    { quantized_op_name := "quantized::mul_scalar_relu_out", pattern := inplace_mul_scalar_inplace_relu, replacement := quantized_mul_scalar_relu_out,
      filter := mul_scalar_filter },
    { quantized_op_name := "quantized::mul_scalar", pattern := mul_scalar, replacement := quantized_mul_scalar,
      filter := mul_scalar_filter },
    { quantized_op_name := "quantized::mul_scalar", pattern := inplace_mul_scalar, replacement := quantized_mul_scalar_out,
      filter := mul_scalar_filter },
    { quantized_op_name := "quantized::mul_relu", pattern := mul_relu, replacement := quantized_mul_relu },
    { quantized_op_name := "quantized::mul_relu", pattern := mul_inplace_relu, replacement := quantized_mul_relu },
    { quantized_op_name := "quantized::mul_relu", pattern := inplace_mul_relu, replacement := quantized_mul_relu },
    { quantized_op_name := "quantized::mul_relu", pattern := inplace_mul_inplace_relu, replacement := quantized_mul_relu },
    { quantized_op_name := "quantized::mul", pattern := mul, replacement := quantized_mul },
    { quantized_op_name := "quantized::mul", pattern := inplace_mul, replacement := quantized_mul },
    { quantized_op_name := "quantized::hardswish", pattern := hardswish, replacement := quantized_hardswish },
    { quantized_op_name := "quantized::layer_norm", pattern := layer_norm, replacement := quantized_layer_norm },
    avg_pool1d,
    avg_pool2d,
    avg_pool3d,
    adaptive_avg_pool1d,
    adaptive_avg_pool2d,
    adaptive_avg_pool3d,
    mean,
    upsample_nearest1d,
    upsample_nearest2d,
    upsample_nearest3d,
    upsample_linear1d,
    upsample_bilinear2d,
    upsample_trilinear3d,
    clamp,
    clamp_,
    hardtanh,
    hardtanh_,
    elu,
    elu_,
    leaky_relu,
    leaky_relu_,
    hardsigmoid,
    hardsigmoid_,
    sigmoid,
    sigmoid_,
    tanh,
    tanh_
  ]

/-! ## The texts of `dynamic_quant_fusion_pattern_and_replacements` -/

namespace dynamic_quant_fusion_pattern_and_replacements

def linear_dynamic : String := "
graph(%packed_params, %a, %reduce_range, %a_dtype):
        %a_scale : float, %a_zero_point : int = aten::_choose_qparams_per_tensor(%a, %reduce_range)
        %a_quant = aten::quantize_per_tensor(%a, %a_scale, %a_zero_point, %a_dtype)
        %a_dequant = aten::dequantize(%a_quant)
        %w_quant : Tensor, %b : Tensor? = quantized::linear_unpack(%packed_params)
        %w_dequant = aten::dequantize(%w_quant)
        %r = aten::linear(%a_dequant, %w_dequant, %b)
        return (%r) "

def quantized_linear_dynamic : String := "
graph(%packed_params, %a, %reduce_range, %a_dtype):
        %r = quantized::linear_dynamic(%a, %packed_params)
        return (%r) "

end dynamic_quant_fusion_pattern_and_replacements

open dynamic_quant_fusion_pattern_and_replacements in
/-- The catalog `dynamic_quant_fusion_pattern_and_replacements()`. -/
def dynamic_quant_fusion_pattern_and_replacements : List QuantFusionInfo :=
  [
    { quantized_op_name := "quantized::linear_dynamic", pattern := linear_dynamic,
      replacement := quantized_linear_dynamic }
  ]

/-! ## Reading a pattern text -/

/-- Characters of a variable name. -/
def isNameChar (c : Char) : Bool := c.isAlphanum || c == '_'

/-- The longest run of name characters at the front of a text. -/
def takeName : List Char → List Char
  | [] => []
  | c :: cs => if isNameChar c then c :: takeName cs else []

/-- The names that follow a `%` sigil in a text, in order of occurrence, without the
sigil. -/
def sigilNames : List Char → List String
  | [] => []
  | c :: cs => if c == '%' then String.mk (takeName cs) :: sigilNames cs else sigilNames cs

/-- The variables named in a pattern text. -/
def patternVariables (text : String) : List String := sigilNames text.data

/-- The lines of a text. -/
def splitLines : List Char → List (List Char)
  | [] => [[]]
  | c :: cs =>
    if c == '\n' then [] :: splitLines cs
    else
      match splitLines cs with
      | [] => [[c]]
      | l :: ls => (c :: l) :: ls

/-- A line without its indentation. -/
def dropIndent (l : List Char) : List Char := l.dropWhile (· == ' ')

/-- The lines of a text that are not blank, without their indentation. -/
def nonBlankLines (text : String) : List (List Char) :=
  ((splitLines text.data).map dropIndent).filter (fun l => !l.isEmpty)

/-- The header line of a text: its first line that is not blank. -/
def headerLine (text : String) : Option (List Char) := (nonBlankLines text).head?

/-- The two sides of the first `=` of a line. -/
def splitAssign : List Char → Option (List Char × List Char)
  | [] => none
  | c :: cs =>
    if c == '=' then some ([], cs)
    else (splitAssign cs).map (fun p => (c :: p.1, p.2))

/-- The operator of the right-hand side of an assignment: the text up to the first
`(` or `[`, without surrounding blanks. -/
def operatorOf (rhs : List Char) : String :=
  String.mk ((dropIndent rhs).takeWhile (fun c => c != '(' && c != '[' && c != ' '))

/-- A line of a pattern text, read by the grammar of the pattern language. -/
inductive Line where
  | header (vars : List String)
  | assign (outs : List String) (op : String) (ins : List String)
  | ret (vars : List String)
  | malformed
  deriving DecidableEq, Repr

/-- Reads one non-blank line. -/
def readLine (l : List Char) : Line :=
  if "graph(".data.isPrefixOf l then
    if "):".data.isSuffixOf l then .header (sigilNames l) else .malformed
  else if "return ".data.isPrefixOf l then .ret (sigilNames l)
  else
    match splitAssign l with
    | some (lhs, rhs) =>
      if "%".data.isPrefixOf lhs then .assign (sigilNames lhs) (operatorOf rhs) (sigilNames rhs)
      else .malformed
    | none => .malformed

/-- The lines of a text, read. -/
def readText (text : String) : List Line := (nonBlankLines text).map readLine

/-- The operators called by the body lines of a text, in order. -/
def calledOperators (text : String) : List String :=
  (readText text).filterMap (fun l => match l with | .assign _ op _ => some op | _ => none)

/-- Whether a text occurs inside another. -/
def occursIn (needle : List Char) : List Char → Bool
  | [] => needle.isEmpty
  | c :: cs => needle.isPrefixOf (c :: cs) || occursIn needle cs

/-- A token of a line of a pattern text: a word or a punctuation character. -/
inductive Token where
  | word (cs : List Char)
  | sym (c : Char)
  deriving DecidableEq, Repr

/-- Characters of a word: those of a name, the `%` sigil, the `:` of a qualified
operator name and of a type annotation, and the `.` of a decimal literal. -/
def isWordChar (c : Char) : Bool := isNameChar c || c == '%' || c == ':' || c == '.'

/-- The tokens of a line with the blanks between them; `none` is a blank. -/
def pieces : List Char → List (Option Token)
  | [] => []
  | c :: cs =>
    if c == ' ' then none :: pieces cs
    else if isWordChar c then
      match pieces cs with
      | some (.word w) :: rest => some (.word (c :: w)) :: rest
      | rest => some (.word [c]) :: rest
    else some (.sym c) :: pieces cs

/-- The tokens of a line. -/
def tokenize (l : List Char) : List Token := (pieces l).filterMap id

/-- The kinds of token that the grammar tells apart. -/
inductive TokenKind where
  | graphWord | returnWord | valueWord | variable | colon | number | name | operator
  | lparen | rparen | comma | equals | lbracket | rbracket | question | other
  deriving DecidableEq, Repr

/-- A qualified operator name `namespace::op`. -/
def isQualifiedName (w : List Char) : Bool :=
  let ns := w.takeWhile isNameChar
  let rest := w.dropWhile isNameChar
  !ns.isEmpty && "::".data.isPrefixOf rest && !(rest.drop 2).isEmpty &&
    (rest.drop 2).all isNameChar

/-- An unsigned decimal literal: digits with at most one point, a digit first. -/
def isNumber (w : List Char) : Bool :=
  (w.head?.map Char.isDigit).getD false && w.all (fun c => c.isDigit || c == '.') &&
    decide (w.count '.' ≤ 1)

/-- The kind of a token. -/
def Token.kind : Token → TokenKind
  | .word w =>
    if w == "graph".data then .graphWord
    else if w == "return".data then .returnWord
    else if w == "value".data then .valueWord
    else if w == [':'] then .colon
    else if isNumber w then .number
    else if !w.isEmpty && w.all isNameChar then .name
    else if isQualifiedName w then .operator
    else
      match w with
      | c :: n => if c == '%' && !n.isEmpty && n.all isNameChar then .variable else .other
      | [] => .other
  | .sym c =>
    if c == '(' then .lparen
    else if c == ')' then .rparen
    else if c == ',' then .comma
    else if c == '=' then .equals
    else if c == '[' then .lbracket
    else if c == ']' then .rbracket
    else if c == '?' then .question
    else .other

/-- Modelled from the spec: the positions inside a line of the pattern grammar, which
is a header line `graph(%v, ...):`, a return line `return (%v, ...)`, an assignment
line `%out : Type, ... = namespace::op(%in, ...)` with optional type annotations, or a
literal node `%out : Type = namespace::op[value=literal]()`. -/
inductive LineState where
  | start
  | headerWord | headerOpen | headerVar | headerComma | headerClose | headerDone
  | returnWord | returnOpen | returnVar | returnComma | returnDone
  | outVar | outColon | outType | outOptional | outComma
  | assignEq | callOp | attrOpen | attrName | attrEq | attrValue | attrClose | attrCallOpen
  | callOpen | callArg | callComma | callDone
  deriving DecidableEq, Repr

/-- Modelled from the spec: one step of the reader of a line of the pattern grammar;
`none` when the token does not fit. -/
def LineState.step : LineState → TokenKind → Option LineState
  | .start, .graphWord => some .headerWord
  | .start, .returnWord => some .returnWord
  | .start, .variable => some .outVar
  | .headerWord, .lparen => some .headerOpen
  | .headerOpen, .variable => some .headerVar
  | .headerOpen, .rparen => some .headerClose
  | .headerVar, .comma => some .headerComma
  | .headerVar, .rparen => some .headerClose
  | .headerComma, .variable => some .headerVar
  | .headerClose, .colon => some .headerDone
  | .returnWord, .lparen => some .returnOpen
  | .returnOpen, .variable => some .returnVar
  | .returnVar, .comma => some .returnComma
  | .returnVar, .rparen => some .returnDone
  | .returnComma, .variable => some .returnVar
  | .outVar, .equals => some .assignEq
  | .outVar, .comma => some .outComma
  | .outVar, .colon => some .outColon
  | .outColon, .name => some .outType
  | .outType, .question => some .outOptional
  | .outType, .equals => some .assignEq
  | .outType, .comma => some .outComma
  | .outOptional, .equals => some .assignEq
  | .outOptional, .comma => some .outComma
  | .outComma, .variable => some .outVar
  | .assignEq, .operator => some .callOp
  | .callOp, .lbracket => some .attrOpen
  | .callOp, .lparen => some .callOpen
  | .attrOpen, .valueWord => some .attrName
  | .attrName, .equals => some .attrEq
  | .attrEq, .number => some .attrValue
  | .attrValue, .rbracket => some .attrClose
  | .attrClose, .lparen => some .attrCallOpen
  | .attrCallOpen, .rparen => some .callDone
  | .callOpen, .variable => some .callArg
  | .callOpen, .rparen => some .callDone
  | .callArg, .comma => some .callComma
  | .callArg, .rparen => some .callDone
  | .callComma, .variable => some .callArg
  | _, _ => none

/-- The state of the reader after the tokens of a line. -/
def LineState.run : LineState → List Token → Option LineState
  | s, [] => some s
  | s, t :: ts =>
    match s.step t.kind with
    | some s2 => LineState.run s2 ts
    | none => none

/-- Modelled from the spec: whether a line is, from its first token to its last, a
header line, an assignment line or a return line of the pattern grammar. -/
def lineGrammar (l : List Char) : Bool :=
  match LineState.run .start (tokenize l) with
  | some .headerDone => true
  | some .returnDone => true
  | some .callDone => true
  | _ => false

/-- Modelled from the spec: the conditions under which the pattern compiler rejects a
text with a ParseError. -/
inductive ParseError where
  | grammar
  | used_before_definition (name : String)
  | defined_twice (name : String)
  | undefined_return (name : String)
  deriving DecidableEq, Repr

/-- The first name of a list that is not among the defined ones. -/
def firstUndefined (defined : List String) (names : List String) : Option String :=
  names.find? (fun n => !defined.contains n)

/-- The first name of a list that is among the defined ones or occurs earlier in the
list. -/
def firstRedefined (defined : List String) : List String → Option String
  | [] => none
  | n :: ns => if defined.contains n then some n else firstRedefined (n :: defined) ns

/-- Modelled from the spec: the checks of the body of a pattern text, given the names
defined so far.  Every input of an assignment is defined, no output is defined
already, and the text ends with a return line on defined names. -/
def checkBody (defined : List String) : List Line → Option ParseError
  | [] => some .grammar
  | .assign outs _ ins :: rest =>
    match firstUndefined defined ins with
    | some n => some (.used_before_definition n)
    | none =>
      match firstRedefined defined outs with
      | some n => some (.defined_twice n)
      | none => if outs.isEmpty then some .grammar else checkBody (defined ++ outs) rest
  | .ret vars :: rest =>
    match firstUndefined defined vars with
    | some n => some (.undefined_return n)
    | none => if vars.isEmpty || !rest.isEmpty then some .grammar else none
  | _ :: _ => some .grammar

/-- Modelled from the spec: the ParseError, if any, that the pattern grammar raises on
a text.  Every line that is not blank is a line of the grammar; the first is a header
line `graph(...):` declaring the free variables, assignment lines follow, and a return
line ends the text; every variable is defined once, before its uses. -/
def parseError (text : String) : Option ParseError :=
  if (nonBlankLines text).all lineGrammar then
    match readText text with
    | .header vars :: rest =>
      match firstRedefined [] vars with
      | some n => some (.defined_twice n)
      | none => checkBody vars rest
    | _ => some .grammar
  else some .grammar

/-- The free variables declared by the header of a text, in order. -/
def headerVariables (text : String) : Option (List String) :=
  match readText text with
  | .header vars :: _ => some vars
  | _ => none

/-- Both catalogs, the static one first. -/
def all_fusion_entries : List QuantFusionInfo :=
  quant_fusion_pattern_and_replacements ++ dynamic_quant_fusion_pattern_and_replacements

/-! ## Vocabulary of the properties -/

/-- The target value a filter reaches for a name: the symbol-map entry of the name,
then the binding of that pattern value in the match; both lookups are checked. -/
def lookupBound (m : Match) (vmap : SymbolMap) (name : String) : Except Failure Value := do
  unordered_map_at m.values_map (← unordered_map_at vmap name)

/-- Positions, in `quant_fusion_pattern_and_replacements`, of the entries that the
source lists with a fourth field (an explicit filter): the add entries 10..21 and the
mul_scalar entries 26..31. -/
def explicit_filter_positions : List Nat :=
  [10, 11, 12, 13, 14, 15, 16, 17, 18, 19, 20, 21, 26, 27, 28, 29, 30, 31]

/-- The literal of the double `1.0`, as its IEEE-754 bit pattern. -/
def double_one : IValue := IValue.double 0x3FF0000000000000

/-- The verdict of the alpha test on a literal: the constant integer 1. -/
def alphaIsOne (lit : Option IValue) : Bool :=
  match lit with
  | some (.int v) => v == 1
  | _ => false

/-- A symbol map for the pattern `mul_scalar`: one pattern value per variable. -/
def mul_scalar_symbols : SymbolMap :=
  [("a_quant", 0), ("b_scalar", 1), ("a_dequant", 2), ("r", 3)]

/-- A match of the pattern `mul_scalar` that binds `%b_scalar` to a float constant. -/
def mul_scalar_match : Match :=
  ⟨[(0, ⟨10, .tensor, none⟩), (1, ⟨11, .float, some double_one⟩), (2, ⟨12, .tensor, none⟩),
    (3, ⟨13, .tensor, none⟩)]⟩

/-- The lines of a text that are not blank, without their indentation. -/
def linesOf (cs : List Char) : List (List Char) :=
  ((splitLines cs).map dropIndent).filter (fun l => !l.isEmpty)

/-- The concatenation, in order, of `", "` followed by each argument. -/
def commaSeparated : List String → String
  | [] => ""
  | x :: xs => ", " ++ x ++ commaSeparated xs

/-- The variables named in a list of arguments, in order. -/
def argumentNames (args : List String) : List String :=
  args.flatMap (fun a => sigilNames a.data)

/-- The header that the two builders give to the pattern and to the replacement. -/
def builderHeader (args : List String) : String :=
  "graph(%a_quant" ++ getExtraArgList args ++ "):"

/-- The first two body lines of a built pattern: the dequantize node and the call of
the operator on `%a_dequant` and the extra arguments. -/
def builderCall (op : String) (args : List String) : String :=
  "
          %a_dequant = aten::dequantize(%a_quant)
          %r = " ++ (op ++ ("(%a_dequant" ++ (getExtraArgList args ++ ")")))

/-- The literal of a constant node: the text between `[value=` and `]` of a right-hand
side. -/
def literalOf (rhs : List Char) : Option String :=
  let attr := rhs.dropWhile (fun c => c != '[')
  if "[value=".data.isPrefixOf attr then
    some (String.mk ((attr.drop 7).takeWhile (fun c => c != ']')))
  else none

/-- The constant nodes of a text: the outputs and the literal of each, in order. -/
def constantLiterals (text : String) : List (List String × String) :=
  (nonBlankLines text).filterMap (fun l =>
    match splitAssign l with
    | some (lhs, rhs) => (literalOf rhs).map (fun v => (sigilNames lhs, v))
    | none => none)

/-- Reads an unsigned decimal literal: the number its digits spell without the point,
and the count of digits after the point. -/
def readDecimal : List Char → Nat → Option Nat → Option (Nat × Nat)
  | [], m, k => some (m, k.getD 0)
  | c :: cs, m, k =>
    if c == '.' then
      match k with
      | none => readDecimal cs m (some 0)
      | some _ => none
    else if c.isDigit then readDecimal cs (10 * m + (c.toNat - '0'.toNat)) (k.map (· + 1))
    else none

/-- The value of an unsigned decimal literal. -/
def literalValue (s : String) : Option ℚ :=
  (readDecimal s.data 0 none).map (fun p => (p.1 : ℚ) / 10 ^ p.2)

/-- The text of a fixed-parameter suffix before the scale literal. -/
def fixedQParamBeforeScale : String := "
          %r_scale : float = prim::Constant[value="

/-- The text of a fixed-parameter suffix between the scale and the zero point. -/
def fixedQParamBeforeZeroPoint : String := "]()
          %r_zero_point : int = prim::Constant[value="

/-- The text of a fixed-parameter suffix after the zero point. -/
def fixedQParamAfterZeroPoint : String := "]()
          %r_dtype : int = prim::Constant[value=13]()
          %r_quant = aten::quantize_per_tensor(%r, %r_scale, %r_zero_point, %r_dtype)
          return (%r_quant) "

/-- Whether a pattern text has an `aten::add` or `aten::add_` node. -/
def callsAdd (text : String) : Bool :=
  (calledOperators text).any (fun o => o == "aten::add" || o == "aten::add_")

/-- Whether the header of a pattern text declares `%b_scalar`. -/
def declaresBScalar (text : String) : Bool :=
  ((headerVariables text).getD []).contains "b_scalar"

/-- The relu operators. -/
def isRelu (op : String) : Bool := op == "aten::relu" || op == "aten::relu_"

/-- Whether the operators of the pattern of `p` are those of the pattern of `q` with
relu nodes added: `p` is the chain of `q` followed by a relu. -/
def isReluVariantOf (p q : QuantFusionInfo) : Bool :=
  (calledOperators p.pattern).any isRelu &&
    (calledOperators p.pattern).filter (fun o => !isRelu o) == calledOperators q.pattern

/-- A symbol map for the pattern `add_scalar`: one pattern value per variable. -/
def add_scalar_symbols : SymbolMap :=
  [("a_quant", 0), ("b_scalar", 1), ("alpha", 2), ("a_dequant", 3), ("r", 4)]

/-- A match of the pattern `add_scalar` that binds `%alpha` to the constant integer 2
and `%b_scalar` to a float constant. -/
def add_scalar_match_alpha_two : Match :=
  ⟨[(0, ⟨30, .tensor, none⟩), (1, ⟨31, .float, some double_one⟩),
    (2, ⟨32, .int, some (.int 2)⟩), (3, ⟨33, .tensor, none⟩), (4, ⟨34, .tensor, none⟩)]⟩

/-! ## Lemmas on the lookups and the filters -/

theorem lookupBound_ok {m : Match} {vmap : SymbolMap} {name : String} {pv : PatternValue}
    {tv : Value} (hs : unordered_map_at vmap name = .ok pv)
    (hb : unordered_map_at m.values_map pv = .ok tv) : lookupBound m vmap name = .ok tv := by
  simp only [lookupBound, hs, bind, Except.bind]
  exact hb

theorem lookupBound_ok_iff (m : Match) (vmap : SymbolMap) (name : String) (tv : Value) :
    lookupBound m vmap name = .ok tv ↔
      ∃ pv, unordered_map_at vmap name = .ok pv ∧ unordered_map_at m.values_map pv = .ok tv := by
  constructor
  · intro h
    unfold lookupBound at h
    cases hs : unordered_map_at vmap name with
    | error e => simp [hs, bind, Except.bind] at h
    | ok pv =>
      refine ⟨pv, rfl, ?_⟩
      simpa [hs, bind, Except.bind] using h
  · rintro ⟨pv, hs, hb⟩
    exact lookupBound_ok hs hb

theorem unordered_map_at_cases {κ ν : Type} [BEq κ] (m : List (κ × ν)) (k : κ) :
    (∃ v, unordered_map_at m k = .ok v) ∨ unordered_map_at m k = .error .out_of_range := by
  unfold unordered_map_at
  cases m.lookup k with
  | none => exact Or.inr rfl
  | some v => exact Or.inl ⟨v, rfl⟩

theorem lookupBound_cases (m : Match) (vmap : SymbolMap) (name : String) :
    (∃ tv, lookupBound m vmap name = .ok tv) ∨
      lookupBound m vmap name = .error .out_of_range := by
  unfold lookupBound
  rcases unordered_map_at_cases vmap name with ⟨pv, hs⟩ | hs
  · rcases unordered_map_at_cases m.values_map pv with ⟨tv, hb⟩ | hb
    · exact Or.inl ⟨tv, by simp only [hs, bind, Except.bind]; exact hb⟩
    · exact Or.inr (by simp only [hs, bind, Except.bind]; exact hb)
  · exact Or.inr (by simp only [hs, bind, Except.bind])

theorem alphaIsOne_iff (lit : Option IValue) : alphaIsOne lit = true ↔ lit = some (.int 1) := by
  unfold alphaIsOne
  split
  · rename_i v
    constructor
    · intro h
      have : v = 1 := by simpa using h
      rw [this]
    · intro h
      injection h with h
      injection h with h
      simp [h]
  · rename_i hne
    constructor
    · intro h; cases h
    · intro h
      exact absurd h (hne 1)

theorem add_filter_eq (m : Match) (vmap : SymbolMap) :
    add_filter m vmap = (lookupBound m vmap "alpha").map (fun tv => alphaIsOne (toIValue tv)) := by
  unfold add_filter lookupBound
  cases hs : unordered_map_at vmap "alpha" with
  | error e => rfl
  | ok pv =>
    cases hb : unordered_map_at m.values_map pv with
    | error e => simp [bind, Except.bind, Except.map, hb]
    | ok tv =>
      simp only [bind, Except.bind, Except.map, hb, pure, Except.pure]
      cases hl : toIValue tv with
      | none => rfl
      | some a => cases a <;> rfl

theorem mul_scalar_filter_eq (m : Match) (vmap : SymbolMap) :
    mul_scalar_filter m vmap =
      (lookupBound m vmap "b_scalar").map (fun tv => tv.type.isSubtypeOf NumberType.get) := by
  unfold mul_scalar_filter lookupBound
  cases hs : unordered_map_at vmap "b_scalar" with
  | error e => rfl
  | ok pv =>
    cases hb : unordered_map_at m.values_map pv with
    | error e => simp [bind, Except.bind, Except.map, hb]
    | ok tv => simp [bind, Except.bind, Except.map, hb, pure, Except.pure]

theorem add_scalar_filter_eq (m : Match) (vmap : SymbolMap) :
    add_scalar_filter m vmap =
      (lookupBound m vmap "alpha").bind (fun av =>
        (lookupBound m vmap "b_scalar").map (fun bv =>
          alphaIsOne (toIValue av) && bv.type.isSubtypeOf NumberType.get)) := by
  unfold add_scalar_filter lookupBound
  cases hs : unordered_map_at vmap "alpha" with
  | error e => rfl
  | ok pv =>
    cases hb : unordered_map_at m.values_map pv with
    | error e => simp [bind, Except.bind, hb]
    | ok av =>
      cases hs2 : unordered_map_at vmap "b_scalar" with
      | error e => simp [bind, Except.bind, Except.map, hb, hs2]
      | ok pv2 =>
        cases hb2 : unordered_map_at m.values_map pv2 with
        | error e => simp [bind, Except.bind, Except.map, hb, hs2, hb2]
        | ok bv =>
          simp only [bind, Except.bind, Except.map, hb, hs2, hb2, pure, Except.pure]
          cases hl : toIValue av with
          | none => rfl
          | some a =>
            cases a <;> try rfl
            rename_i v
            simp only [IValue.isInt, IValue.toInt, alphaIsOne, if_true]
            by_cases h1 : (v == 1) = true <;> simp [h1]

/-- Each filter returns a boolean exactly when the names it looks up reach a target
value. -/
theorem filters_return_iff_bound_aux (m : Match) (vmap : SymbolMap) :
    ((∃ b, add_filter m vmap = .ok b) ↔ ∃ tv, lookupBound m vmap "alpha" = .ok tv) ∧
    ((∃ b, mul_scalar_filter m vmap = .ok b) ↔ ∃ tv, lookupBound m vmap "b_scalar" = .ok tv) ∧
    ((∃ b, add_scalar_filter m vmap = .ok b) ↔
      (∃ tv, lookupBound m vmap "alpha" = .ok tv) ∧
        ∃ tv, lookupBound m vmap "b_scalar" = .ok tv) := by
  rw [add_filter_eq, mul_scalar_filter_eq, add_scalar_filter_eq]
  refine ⟨?_, ?_, ?_⟩
  · cases lookupBound m vmap "alpha" <;> simp [Except.map]
  · cases lookupBound m vmap "b_scalar" <;> simp [Except.map]
  · cases lookupBound m vmap "alpha" <;> cases lookupBound m vmap "b_scalar" <;>
      simp [Except.map, Except.bind]

/-! ## The default filter -/

/-- C1: the default filter of a `QuantFusionInfo` returns true for every match and
every symbol map.  So does the filter of every entry of the two catalogs that the
source lists without a filter, and of every entry built by
`getInputTensorQParamOpFusionInfo` or `getFixedQParamOpFusionInfo`. -/
theorem default_filter_accepts_every_match (m : Match) (vmap : SymbolMap) :
    (∀ name pat rep : String,
      ({ quantized_op_name := name, pattern := pat, replacement := rep } : QuantFusionInfo).filter
        m vmap = .ok true) ∧
    (∀ p ∈ quant_fusion_pattern_and_replacements.enum,
      p.1 ∉ explicit_filter_positions → p.2.filter m vmap = .ok true) ∧
    (∀ e ∈ dynamic_quant_fusion_pattern_and_replacements, e.filter m vmap = .ok true) ∧
    (∀ op args, (getInputTensorQParamOpFusionInfo op args).filter m vmap = .ok true) ∧
    (∀ op args sym, (getFixedQParamOpFusionInfo op args sym).filter m vmap = .ok true) := by
  refine ⟨fun _ _ _ => rfl, ?_, ?_, fun _ _ => rfl, fun _ _ _ => rfl⟩
  · intro p hp hn
    simp only [quant_fusion_pattern_and_replacements, List.enum, List.enumFrom, List.mem_cons,
      List.mem_nil_iff, or_false] at hp
    repeat' (rcases hp with hp | hp)
    all_goals first
      | rfl
      | exact absurd (by decide) hn
  · intro e he
    simp only [dynamic_quant_fusion_pattern_and_replacements, List.mem_singleton] at he
    subst he
    rfl

/-! ## The three filters on bound names -/

/-- C2: when `alpha` is mapped to a pattern value that the match binds to a target
value, `add_filter` returns a boolean, and it returns true if and only if the target
value is a constant whose literal is the integer 1.  It returns false when the value
carries no literal, when the literal is the integer 2, and when the literal is not an
integer, such as the double 1.0. -/
theorem add_filter_true_iff_alpha_is_one (m : Match) (vmap : SymbolMap) (pv : PatternValue)
    (tv : Value) (hs : unordered_map_at vmap "alpha" = .ok pv)
    (hb : unordered_map_at m.values_map pv = .ok tv) :
    (add_filter m vmap = .ok true ↔ toIValue tv = some (.int 1)) ∧
    (∃ b, add_filter m vmap = .ok b) ∧
    (toIValue tv = none → add_filter m vmap = .ok false) ∧
    (toIValue tv = some (.int 2) → add_filter m vmap = .ok false) ∧
    (toIValue tv = some double_one → add_filter m vmap = .ok false) ∧
    (∀ lit, toIValue tv = some lit → lit.isInt = false → add_filter m vmap = .ok false) := by
  have h : add_filter m vmap = .ok (alphaIsOne (toIValue tv)) := by
    rw [add_filter_eq, lookupBound_ok hs hb]; rfl
  refine ⟨?_, ⟨_, h⟩, ?_, ?_, ?_, ?_⟩
  · rw [h, ← alphaIsOne_iff]
    constructor
    · intro e; injection e
    · intro e; rw [e]
  · intro e; rw [h, e]; rfl
  · intro e; rw [h, e]; rfl
  · intro e; rw [h, e]; rfl
  · intro lit e hl
    rw [h, e]
    cases lit <;> first | rfl | cases hl

/-- Witness of C2 on a match that binds `alpha` to the constant integer 1. -/
theorem add_filter_true_iff_alpha_is_one_witness :
    unordered_map_at [("alpha", 0)] "alpha" = .ok 0 ∧
    unordered_map_at [((0 : PatternValue), (⟨7, .int, some (.int 1)⟩ : Value))] 0 =
      .ok ⟨7, .int, some (.int 1)⟩ ∧
    add_filter ⟨[(0, ⟨7, .int, some (.int 1)⟩)]⟩ [("alpha", 0)] = .ok true :=
  ⟨rfl, rfl,
    (add_filter_true_iff_alpha_is_one ⟨[(0, ⟨7, .int, some (.int 1)⟩)]⟩ [("alpha", 0)] 0
      ⟨7, .int, some (.int 1)⟩ rfl rfl).1.2 rfl⟩

/-- C3: when `b_scalar` is mapped to a pattern value that the match binds to a target
value, `mul_scalar_filter` returns a boolean, and it returns true if and only if the
type of the target value is a subtype of the numeric type; a tensor-typed value is
rejected. -/
theorem mul_scalar_filter_true_iff_numeric (m : Match) (vmap : SymbolMap) (pv : PatternValue)
    (tv : Value) (hs : unordered_map_at vmap "b_scalar" = .ok pv)
    (hb : unordered_map_at m.values_map pv = .ok tv) :
    (mul_scalar_filter m vmap = .ok true ↔ tv.type.isSubtypeOf NumberType.get = true) ∧
    (∃ b, mul_scalar_filter m vmap = .ok b) ∧
    (tv.type = .tensor → mul_scalar_filter m vmap = .ok false) := by
  have h : mul_scalar_filter m vmap = .ok (tv.type.isSubtypeOf NumberType.get) := by
    rw [mul_scalar_filter_eq, lookupBound_ok hs hb]; rfl
  refine ⟨?_, ⟨_, h⟩, ?_⟩
  · rw [h]
    constructor
    · intro e; injection e
    · intro e; rw [e]
  · intro e; rw [h, e]; rfl

/-- Witness of C3 on a match that binds `b_scalar` to a tensor-typed value. -/
theorem mul_scalar_filter_true_iff_numeric_witness :
    unordered_map_at [("b_scalar", 1)] "b_scalar" = .ok 1 ∧
    unordered_map_at [((1 : PatternValue), (⟨9, .tensor, none⟩ : Value))] 1 =
      .ok ⟨9, .tensor, none⟩ ∧
    mul_scalar_filter ⟨[(1, ⟨9, .tensor, none⟩)]⟩ [("b_scalar", 1)] = .ok false :=
  ⟨rfl, rfl,
    (mul_scalar_filter_true_iff_numeric ⟨[(1, ⟨9, .tensor, none⟩)]⟩ [("b_scalar", 1)] 1
      ⟨9, .tensor, none⟩ rfl rfl).2.2 rfl⟩

/-- C4: when both `alpha` and `b_scalar` are bound, `add_scalar_filter` returns true
exactly when `add_filter` and `mul_scalar_filter` both return true on the same match
and symbol map, that is when `alpha` is the constant integer 1 and `b_scalar` has a
numeric type; when either of the two returns false, it returns false. -/
theorem add_scalar_filter_iff_add_and_mul_scalar (m : Match) (vmap : SymbolMap)
    (pa pb : PatternValue) (ta tb : Value)
    (hsa : unordered_map_at vmap "alpha" = .ok pa)
    (hba : unordered_map_at m.values_map pa = .ok ta)
    (hsb : unordered_map_at vmap "b_scalar" = .ok pb)
    (hbb : unordered_map_at m.values_map pb = .ok tb) :
    (add_scalar_filter m vmap = .ok true ↔
      add_filter m vmap = .ok true ∧ mul_scalar_filter m vmap = .ok true) ∧
    (add_scalar_filter m vmap = .ok true ↔
      toIValue ta = some (.int 1) ∧ tb.type.isSubtypeOf NumberType.get = true) ∧
    (add_filter m vmap = .ok false → add_scalar_filter m vmap = .ok false) ∧
    (mul_scalar_filter m vmap = .ok false → add_scalar_filter m vmap = .ok false) := by
  have ha : add_filter m vmap = .ok (alphaIsOne (toIValue ta)) := by
    rw [add_filter_eq, lookupBound_ok hsa hba]; rfl
  have hm : mul_scalar_filter m vmap = .ok (tb.type.isSubtypeOf NumberType.get) := by
    rw [mul_scalar_filter_eq, lookupBound_ok hsb hbb]; rfl
  have hs : add_scalar_filter m vmap =
      .ok (alphaIsOne (toIValue ta) && tb.type.isSubtypeOf NumberType.get) := by
    rw [add_scalar_filter_eq, lookupBound_ok hsa hba, lookupBound_ok hsb hbb]; rfl
  rw [ha, hm, hs, ← alphaIsOne_iff]
  cases alphaIsOne (toIValue ta) <;> cases tb.type.isSubtypeOf NumberType.get <;> simp

/-- Witness of C4 on a match that binds `alpha` to the constant 1 and `b_scalar` to a
float-typed value. -/
theorem add_scalar_filter_iff_add_and_mul_scalar_witness :
    add_scalar_filter ⟨[(0, ⟨7, .int, some (.int 1)⟩), (1, ⟨8, .float, none⟩)]⟩
      [("alpha", 0), ("b_scalar", 1)] = .ok true :=
  (add_scalar_filter_iff_add_and_mul_scalar
    ⟨[(0, ⟨7, .int, some (.int 1)⟩), (1, ⟨8, .float, none⟩)]⟩
    [("alpha", 0), ("b_scalar", 1)] 0 1 ⟨7, .int, some (.int 1)⟩ ⟨8, .float, none⟩
    rfl rfl rfl rfl).2.1.2 ⟨rfl, rfl⟩

/-! ## The filters on missing names -/

/-- C5, counterexample: on the empty match and the empty symbol map the three filters
do not return false; the lookup of the name fails with `out_of_range`.  So does
`add_filter` when the symbol map has `alpha` and the match does not bind it. -/
theorem filters_fail_on_missing_entry :
    add_filter ⟨[]⟩ [] = .error .out_of_range ∧
    add_scalar_filter ⟨[]⟩ [] = .error .out_of_range ∧
    mul_scalar_filter ⟨[]⟩ [] = .error .out_of_range ∧
    add_filter ⟨[]⟩ [("alpha", 0)] = .error .out_of_range ∧
    add_filter ⟨[]⟩ [] ≠ .ok false ∧
    ¬ ∀ (m : Match) (vmap : SymbolMap), ∃ b, add_filter m vmap = .ok b := by
  refine ⟨rfl, rfl, rfl, rfl, ?_, ?_⟩
  · intro h; cases h
  · intro h
    obtain ⟨b, hb⟩ := h ⟨[]⟩ []
    cases hb

/-- C5, amended: a filter yields a boolean exactly when the value of every name it
looks up is reachable (the symbol map has the name and the match binds its pattern
value); otherwise it fails with `out_of_range`, and no other failure occurs.  When
`alpha` is reachable and its value carries no literal, `add_filter` returns false. -/
theorem filters_return_iff_names_bound (m : Match) (vmap : SymbolMap) :
    ((∃ b, add_filter m vmap = .ok b) ↔ ∃ tv, lookupBound m vmap "alpha" = .ok tv) ∧
    ((∃ b, mul_scalar_filter m vmap = .ok b) ↔ ∃ tv, lookupBound m vmap "b_scalar" = .ok tv) ∧
    ((∃ b, add_scalar_filter m vmap = .ok b) ↔
      (∃ tv, lookupBound m vmap "alpha" = .ok tv) ∧
        ∃ tv, lookupBound m vmap "b_scalar" = .ok tv) ∧
    (∀ f ∈ [add_filter, add_scalar_filter, mul_scalar_filter],
      (∃ b, f m vmap = .ok b) ∨ f m vmap = .error .out_of_range) ∧
    (∀ tv, lookupBound m vmap "alpha" = .ok tv → toIValue tv = none →
      add_filter m vmap = .ok false) := by
  have hall : ∀ f ∈ [add_filter, add_scalar_filter, mul_scalar_filter],
      (∃ b, f m vmap = .ok b) ∨ f m vmap = .error .out_of_range := by
    intro f hf
    simp only [List.mem_cons, List.mem_singleton, List.mem_nil_iff, or_false] at hf
    rcases hf with rfl | rfl | rfl
    · rw [add_filter_eq]
      rcases lookupBound_cases m vmap "alpha" with ⟨tv, h⟩ | h <;> rw [h]
      · exact Or.inl ⟨_, rfl⟩
      · exact Or.inr rfl
    · rw [add_scalar_filter_eq]
      rcases lookupBound_cases m vmap "alpha" with ⟨tv, h⟩ | h <;> rw [h]
      · rcases lookupBound_cases m vmap "b_scalar" with ⟨tv2, h2⟩ | h2 <;> rw [h2]
        · exact Or.inl ⟨_, rfl⟩
        · exact Or.inr rfl
      · exact Or.inr rfl
    · rw [mul_scalar_filter_eq]
      rcases lookupBound_cases m vmap "b_scalar" with ⟨tv, h⟩ | h <;> rw [h]
      · exact Or.inl ⟨_, rfl⟩
      · exact Or.inr rfl
  obtain ⟨h1, h2, h3⟩ := filters_return_iff_bound_aux m vmap
  refine ⟨h1, h2, h3, hall, ?_⟩
  intro tv h hl
  rw [add_filter_eq, h]
  simp [Except.map, hl, alphaIsOne]

/-! ## Filters of the catalog entries -/

theorem unordered_map_at_mem {κ ν : Type} [BEq κ] {m : List (κ × ν)} {k : κ} {v : ν}
    (h : unordered_map_at m k = .ok v) : ∃ k2, (k2, v) ∈ m := by
  unfold unordered_map_at at h
  induction m with
  | nil => simp [List.lookup] at h
  | cons p ps ih =>
    rcases p with ⟨k1, v1⟩
    simp only [List.lookup] at h
    cases hk : (k == k1) with
    | true =>
      rw [hk] at h
      injection h with h
      exact ⟨k1, by rw [h]; exact List.mem_cons_self _ _⟩
    | false =>
      rw [hk] at h
      obtain ⟨k2, h2⟩ := ih h
      exact ⟨k2, List.mem_cons_of_mem _ h2⟩

theorem unordered_map_at_of_toBool {κ ν : Type} [BEq κ] {m : List (κ × ν)} {k : κ}
    (h : (unordered_map_at m k).toBool = true) : ∃ v, unordered_map_at m k = .ok v := by
  cases hm : unordered_map_at m k with
  | error e => rw [hm] at h; cases h
  | ok v => exact ⟨v, rfl⟩

/-- A name that the symbol map has, in a match that binds every pattern value of the
symbol map, reaches a target value. -/
theorem lookupBound_of_present {m : Match} {vmap : SymbolMap} {name : String}
    (hn : (unordered_map_at vmap name).toBool = true)
    (hm : ∀ q ∈ vmap, (unordered_map_at m.values_map q.2).toBool = true) :
    ∃ tv, lookupBound m vmap name = .ok tv := by
  obtain ⟨pv, hs⟩ := unordered_map_at_of_toBool hn
  obtain ⟨k2, hk⟩ := unordered_map_at_mem hs
  obtain ⟨tv, hb⟩ := unordered_map_at_of_toBool (hm _ hk)
  exact ⟨tv, lookupBound_ok hs hb⟩

/-- The filter of every catalog entry is the default one or one of the three named
filters, and the pattern of the entry names the variables that its filter looks up. -/
theorem filter_of_entry : ∀ e ∈ all_fusion_entries,
    (∀ m vmap, e.filter m vmap = .ok true) ∨
    (e.filter = add_filter ∧ "alpha" ∈ patternVariables e.pattern) ∨
    (e.filter = add_scalar_filter ∧ "alpha" ∈ patternVariables e.pattern ∧
      "b_scalar" ∈ patternVariables e.pattern) ∨
    (e.filter = mul_scalar_filter ∧ "b_scalar" ∈ patternVariables e.pattern) := by
  intro e he
  simp only [all_fusion_entries, quant_fusion_pattern_and_replacements,
    dynamic_quant_fusion_pattern_and_replacements, List.cons_append, List.nil_append,
    List.mem_cons, List.mem_nil_iff, or_false] at he
  repeat' (rcases he with he | he)
  all_goals first
    | exact Or.inl (fun _ _ => rfl)
    | exact Or.inr (Or.inl ⟨rfl, by decide!⟩)
    | exact Or.inr (Or.inr (Or.inl ⟨rfl, by decide!, by decide!⟩))
    | exact Or.inr (Or.inr (Or.inr ⟨rfl, by decide!⟩))

/-- C6: the filter of every entry of the two catalogs is total on the structurally
valid matches of the entry's own pattern: when the symbol map has every variable named
in the pattern text and the match binds every pattern value of the symbol map, the
filter returns a boolean. -/
theorem catalog_filter_total_on_own_pattern (i : Nat) (e : QuantFusionInfo)
    (he : all_fusion_entries[i]? = some e) (m : Match) (vmap : SymbolMap)
    (hv : ∀ n ∈ patternVariables e.pattern, (unordered_map_at vmap n).toBool = true)
    (hm : ∀ q ∈ vmap, (unordered_map_at m.values_map q.2).toBool = true) :
    ∃ b, e.filter m vmap = .ok b := by
  have hret := filters_return_iff_bound_aux m vmap
  rcases filter_of_entry e (List.getElem?_mem he) with h | ⟨hf, ha⟩ | ⟨hf, ha, hb⟩ | ⟨hf, hb⟩
  · exact ⟨true, h m vmap⟩
  · rw [hf]
    exact hret.1.2 (lookupBound_of_present (hv _ ha) hm)
  · rw [hf]
    exact hret.2.2.2 ⟨lookupBound_of_present (hv _ ha) hm, lookupBound_of_present (hv _ hb) hm⟩
  · rw [hf]
    exact hret.2.1.2 (lookupBound_of_present (hv _ hb) hm)

/-- Witness of C6 on the entry `quantized::mul_scalar` at position 30. -/
theorem catalog_filter_total_on_own_pattern_witness :
    all_fusion_entries[30]? = some
      { quantized_op_name := "quantized::mul_scalar",
        pattern := quant_fusion_pattern_and_replacements.mul_scalar,
        replacement := quant_fusion_pattern_and_replacements.quantized_mul_scalar,
        filter := mul_scalar_filter } ∧
    ∃ b, mul_scalar_filter mul_scalar_match mul_scalar_symbols = .ok b :=
  ⟨rfl,
    catalog_filter_total_on_own_pattern 30
      { quantized_op_name := "quantized::mul_scalar",
        pattern := quant_fusion_pattern_and_replacements.mul_scalar,
        replacement := quant_fusion_pattern_and_replacements.quantized_mul_scalar,
        filter := mul_scalar_filter }
      rfl mul_scalar_match mul_scalar_symbols (by decide!) (by decide!)⟩

/-! ## Order of the add entries -/

/-- C7: in `quant_fusion_pattern_and_replacements`, every entry named
`quantized::add_scalar_relu` or `quantized::add_scalar_relu_out` has a smaller index
than every entry named `quantized::add_scalar` or `quantized::add_scalar_out`, and
these, like every `quantized::add_relu` entry, have a smaller index than every entry
named `quantized::add`. -/
theorem add_entries_specific_before_general (i j : Nat) (a b : QuantFusionInfo)
    (hi : quant_fusion_pattern_and_replacements[i]? = some a)
    (hj : quant_fusion_pattern_and_replacements[j]? = some b) :
    (a.quantized_op_name ∈ ["quantized::add_scalar_relu", "quantized::add_scalar_relu_out"] →
      b.quantized_op_name ∈ ["quantized::add_scalar", "quantized::add_scalar_out"] → i < j) ∧
    (a.quantized_op_name ∈
        ["quantized::add_scalar", "quantized::add_scalar_out", "quantized::add_relu"] →
      b.quantized_op_name = "quantized::add" → i < j) := by
  have core : ∀ p ∈ quant_fusion_pattern_and_replacements.enum,
      ∀ q ∈ quant_fusion_pattern_and_replacements.enum,
      (p.2.quantized_op_name ∈ ["quantized::add_scalar_relu", "quantized::add_scalar_relu_out"] →
        q.2.quantized_op_name ∈ ["quantized::add_scalar", "quantized::add_scalar_out"] →
        p.1 < q.1) ∧
      (p.2.quantized_op_name ∈
          ["quantized::add_scalar", "quantized::add_scalar_out", "quantized::add_relu"] →
        q.2.quantized_op_name = "quantized::add" → p.1 < q.1) := by
    decide!
  exact core (i, a) (List.mk_mem_enum_iff_getElem?.mpr hi) (j, b)
    (List.mk_mem_enum_iff_getElem?.mpr hj)

/-- Witness of C7 on positions 14 (`quantized::add_scalar_relu`) and 18
(`quantized::add_scalar`). -/
theorem add_entries_specific_before_general_witness :
    (quant_fusion_pattern_and_replacements[14]?.map (·.quantized_op_name) =
      some "quantized::add_scalar_relu") ∧
    (quant_fusion_pattern_and_replacements[18]?.map (·.quantized_op_name) =
      some "quantized::add_scalar") ∧
    14 < 18 :=
  ⟨rfl, rfl,
    (add_entries_specific_before_general 14 18
      { quantized_op_name := "quantized::add_scalar_relu",
        pattern := quant_fusion_pattern_and_replacements.add_scalar_relu,
        replacement := quant_fusion_pattern_and_replacements.quantized_add_scalar_relu,
        filter := add_scalar_filter }
      { quantized_op_name := "quantized::add_scalar",
        pattern := quant_fusion_pattern_and_replacements.add_scalar,
        replacement := quant_fusion_pattern_and_replacements.quantized_add_scalar,
        filter := add_scalar_filter }
      rfl rfl).1 (by decide) (by decide)⟩

/-! ## Operator names and replacement texts -/

/-- C8, at the entry of position 31: the entry that replaces `inplace_mul_scalar` is
named `quantized::mul_scalar` while the single node of its replacement calls
`quantized::mul_scalar_out`, and the text `quantized::mul_scalar(` does not occur in
the replacement.  At every other position of the two catalogs the name is the operator
that the single node of the replacement calls, as for the sibling entry
`quantized::add_scalar_out` of position 19. -/
theorem mul_scalar_out_entry_named_mul_scalar :
    (all_fusion_entries[31]?.map
        (fun e => (e.quantized_op_name, e.pattern, calledOperators e.replacement)) =
      some ("quantized::mul_scalar", quant_fusion_pattern_and_replacements.inplace_mul_scalar,
        ["quantized::mul_scalar_out"])) ∧
    (all_fusion_entries[31]?.map
        (fun e => occursIn (e.quantized_op_name ++ "(").data e.replacement.data) =
      some false) ∧
    (all_fusion_entries[19]?.map
        (fun e => (e.quantized_op_name, e.pattern, calledOperators e.replacement)) =
      some ("quantized::add_scalar_out",
        quant_fusion_pattern_and_replacements.inplace_add_scalar,
        ["quantized::add_scalar_out"])) ∧
    (∀ p ∈ all_fusion_entries.enum, p.1 ≠ 31 →
      calledOperators p.2.replacement = [p.2.quantized_op_name] ∧
      occursIn (p.2.quantized_op_name ++ "(").data p.2.replacement.data = true) := by
  refine ⟨by decide!, by decide!, by decide!, by decide!⟩

/-! ## Headers and definition before use -/

/-- C9: for every entry of the two catalogs, the header line of the replacement text is
identical to the header line of the pattern text; both declare the same free variables
in the same order. -/
theorem replacement_header_eq_pattern_header (i : Nat) (e : QuantFusionInfo)
    (he : all_fusion_entries[i]? = some e) :
    headerLine e.replacement = headerLine e.pattern ∧
    (∃ vars, headerVariables e.pattern = some vars ∧ headerVariables e.replacement = some vars) := by
  have core : ∀ e ∈ all_fusion_entries,
      headerLine e.replacement = headerLine e.pattern ∧
      headerVariables e.replacement = headerVariables e.pattern ∧
      (headerVariables e.pattern).isSome = true := by
    decide!
  obtain ⟨h1, h2, h3⟩ := core e (List.getElem?_mem he)
  refine ⟨h1, ?_⟩
  obtain ⟨vars, hv⟩ := Option.isSome_iff_exists.mp h3
  exact ⟨vars, hv, by rw [h2, hv]⟩

/-- Witness of C9 on the entry `quantized::conv1d` at position 0. -/
theorem replacement_header_eq_pattern_header_witness :
    all_fusion_entries[0]? = some
      { quantized_op_name := "quantized::conv1d",
        pattern := quant_fusion_pattern_and_replacements.conv1d,
        replacement := quant_fusion_pattern_and_replacements.quantized_conv1d } ∧
    headerLine quant_fusion_pattern_and_replacements.quantized_conv1d =
      headerLine quant_fusion_pattern_and_replacements.conv1d :=
  ⟨rfl,
    (replacement_header_eq_pattern_header 0
      { quantized_op_name := "quantized::conv1d",
        pattern := quant_fusion_pattern_and_replacements.conv1d,
        replacement := quant_fusion_pattern_and_replacements.quantized_conv1d } rfl).1⟩

/-- The grammar rejects a line without an operator call, an unbalanced call, a return
without parentheses and a header without its colon; the checks on definitions reject a
use before the definition, a second definition and an undefined return. -/
theorem parseError_rejects_ill_formed_texts :
    parseError "graph(%a):\n  %r = \n  return (%r)" = some .grammar ∧
    parseError "graph(%a):\n  %r = x::y(%a\n  return (%r)" = some .grammar ∧
    parseError "graph(%a):\n  %r = x::y(%a)\n  return %r" = some .grammar ∧
    parseError "graph(%a)\n  %r = x::y(%a)\n  return (%r)" = some .grammar ∧
    parseError "graph(%a):\n  %r = x::y(%a)" = some .grammar ∧
    parseError "graph(%a):\n  %r = x::y(%b)\n  return (%r)" =
      some (.used_before_definition "b") ∧
    parseError "graph(%a):\n  %a = x::y(%a)\n  return (%a)" = some (.defined_twice "a") ∧
    parseError "graph(%a):\n  %r = x::y(%a)\n  return (%c)" = some (.undefined_return "c") ∧
    parseError "graph(%a):\n  %r = x::y(%a)\n  return (%r)" = none := by
  refine ⟨by decide!, by decide!, by decide!, by decide!, by decide!, by decide!, by decide!,
    by decide!, by decide!⟩

/-- C10: every pattern text and every replacement text of the two catalogs is a text of
the pattern grammar that respects definition before use: every line is a header,
assignment or return line, every variable used by a body line is declared by the
header or defined by an earlier body line, no variable is defined twice, and the
variable of the return line is defined; none of the ParseError conditions applies. -/
theorem catalog_texts_define_before_use (i : Nat) (e : QuantFusionInfo)
    (he : all_fusion_entries[i]? = some e) :
    parseError e.pattern = none ∧ parseError e.replacement = none := by
  have core : ∀ e ∈ all_fusion_entries,
      parseError e.pattern = none ∧ parseError e.replacement = none := by
    decide!
  exact core e (List.getElem?_mem he)

/-- Witness of C10 on the entry `quantized::linear_dynamic`, the last position. -/
theorem catalog_texts_define_before_use_witness :
    all_fusion_entries[67]? = some
      { quantized_op_name := "quantized::linear_dynamic",
        pattern := dynamic_quant_fusion_pattern_and_replacements.linear_dynamic,
        replacement := dynamic_quant_fusion_pattern_and_replacements.quantized_linear_dynamic } ∧
    parseError dynamic_quant_fusion_pattern_and_replacements.linear_dynamic = none ∧
    parseError dynamic_quant_fusion_pattern_and_replacements.quantized_linear_dynamic = none :=
  ⟨rfl,
    catalog_texts_define_before_use 67
      { quantized_op_name := "quantized::linear_dynamic",
        pattern := dynamic_quant_fusion_pattern_and_replacements.linear_dynamic,
        replacement := dynamic_quant_fusion_pattern_and_replacements.quantized_linear_dynamic }
      rfl⟩

/-! ## Lemmas on reading texts -/

theorem takeName_append_stop (a b : List Char) (c : Char) (hc : isNameChar c = false) :
    takeName (a ++ c :: b) = takeName a := by
  induction a with
  | nil => simp [takeName, hc]
  | cons x a ih =>
    simp only [List.cons_append, takeName, List.append_eq]
    split
    · rw [ih]
    · rfl

theorem sigilNames_append_stop (a b : List Char) (c : Char) (hc : isNameChar c = false) :
    sigilNames (a ++ c :: b) = sigilNames a ++ sigilNames (c :: b) := by
  induction a with
  | nil => rfl
  | cons x a ih =>
    simp only [List.cons_append, sigilNames, List.append_eq]
    split
    · rw [ih, takeName_append_stop a b c hc]
      rfl
    · exact ih

/-- The names of a text followed by a text that starts with a character that ends a
name are the names of the first followed by the names of the second. -/
theorem sigilNames_append (a b : List Char) (hb : ∀ c ∈ b.head?, isNameChar c = false) :
    sigilNames (a ++ b) = sigilNames a ++ sigilNames b := by
  cases b with
  | nil => simp [sigilNames]
  | cons c b => exact sigilNames_append_stop a b c (hb c rfl)

theorem commaSeparated_head (xs : List String) (c : Char) (b : List Char)
    (hc : isNameChar c = false) :
    ∀ c0 ∈ ((commaSeparated xs).data ++ c :: b).head?, isNameChar c0 = false := by
  cases xs with
  | nil =>
    intro c0 h
    simp only [commaSeparated, String.data_append] at h
    have : c0 = c := by simpa using h.symm
    rw [this]; exact hc
  | cons x xs =>
    intro c0 h
    have hd : (commaSeparated (x :: xs)).data = ',' :: ' ' :: (x.data ++ (commaSeparated xs).data) := by
      simp only [commaSeparated, String.data_append]
      rfl
    rw [hd] at h
    have : c0 = ',' := by simpa using h.symm
    rw [this]; rfl

/-- The names of a comma-separated argument list, closed by a character that ends a
name, are the names of the arguments in order. -/
theorem sigilNames_commaSeparated (xs : List String) (c : Char) (b : List Char)
    (hc : isNameChar c = false) :
    sigilNames ((commaSeparated xs).data ++ c :: b) = argumentNames xs ++ sigilNames (c :: b) := by
  induction xs with
  | nil => simp [commaSeparated, argumentNames]
  | cons x xs ih =>
    have hd : (commaSeparated (x :: xs)).data ++ c :: b =
        ',' :: ' ' :: (x.data ++ ((commaSeparated xs).data ++ c :: b)) := by
      simp only [commaSeparated, String.data_append, List.append_assoc]
      rfl
    rw [hd]
    have h2 : sigilNames (',' :: ' ' :: (x.data ++ ((commaSeparated xs).data ++ c :: b))) =
        sigilNames (x.data ++ ((commaSeparated xs).data ++ c :: b)) := rfl
    rw [h2, sigilNames_append _ _ (commaSeparated_head xs c b hc), ih]
    simp [argumentNames, List.flatMap_cons]

theorem splitLines_ne_nil (s : List Char) : splitLines s ≠ [] := by
  cases s with
  | nil => simp [splitLines]
  | cons c cs =>
    simp only [splitLines]
    split
    · simp
    · split <;> simp

theorem splitLines_append_newline (a b : List Char) :
    splitLines (a ++ '\n' :: b) = splitLines a ++ splitLines b := by
  induction a with
  | nil => simp [splitLines]
  | cons c a ih =>
    simp only [List.cons_append, splitLines, List.append_eq]
    split
    · rw [ih]; rfl
    · rw [ih]
      cases hs : splitLines a with
      | nil => exact absurd hs (splitLines_ne_nil a)
      | cons l ls => rfl

theorem linesOf_append_newline (a b : List Char) :
    linesOf (a ++ '\n' :: b) = linesOf a ++ linesOf b := by
  simp only [linesOf, splitLines_append_newline, List.map_append, List.filter_append]

theorem readText_eq (text : String) : readText text = (linesOf text.data).map readLine := rfl

/-- Reading a text followed by a line break and a second text reads the first, then
the second. -/
theorem readText_append_newline (s t : String) (u : List Char) (ht : t.data = '\n' :: u) :
    readText (s ++ t) = readText s ++ readText ⟨u⟩ := by
  simp only [readText_eq, String.data_append, ht, linesOf_append_newline, List.map_append]

/-! ## Replacement texts have a single node -/

theorem foldl_extra_args (acc : String) (xs : List String) :
    xs.foldl (fun acc arg => acc ++ ", " ++ arg) acc = acc ++ commaSeparated xs := by
  induction xs generalizing acc with
  | nil => simp [commaSeparated]
  | cons x xs ih =>
    rw [List.foldl_cons, ih]
    simp only [commaSeparated, String.append_assoc]

theorem getExtraArgList_eq (xs : List String) : getExtraArgList xs = commaSeparated xs := by
  unfold getExtraArgList
  rw [foldl_extra_args]
  simp

theorem commaSeparated_append (xs ys : List String) :
    commaSeparated (xs ++ ys) = commaSeparated xs ++ commaSeparated ys := by
  induction xs with
  | nil => simp [commaSeparated]
  | cons x xs ih =>
    rw [List.cons_append]
    simp only [commaSeparated, ih, String.append_assoc]

theorem commaSeparated_length (xs : List String) :
    (commaSeparated xs).length = (xs.map (fun x => x.length + 2)).sum := by
  induction xs with
  | nil => rfl
  | cons x xs ih =>
    simp only [commaSeparated, String.length_append, ih, List.map_cons, List.sum_cons]
    have : (", " : String).length = 2 := rfl
    omega

/-- C12: for every list of strings, `getExtraArgList` is the concatenation, in order,
of `", "` followed by each string.  It is the empty string on the empty list, it maps
the concatenation of two lists to the concatenation of their results, and its length
is the sum over the list of the length of the string plus 2. -/
theorem getExtraArgList_is_comma_separated (xs : List String) :
    getExtraArgList xs = commaSeparated xs ∧
    getExtraArgList [] = "" ∧
    (∀ ys, getExtraArgList (xs ++ ys) = getExtraArgList xs ++ getExtraArgList ys) ∧
    (getExtraArgList xs).length = (xs.map (fun x => x.length + 2)).sum := by
  refine ⟨getExtraArgList_eq xs, rfl, ?_, ?_⟩
  · intro ys
    simp only [getExtraArgList_eq, commaSeparated_append]
  · rw [getExtraArgList_eq, commaSeparated_length]

/-! ## The pattern builders -/

theorem sigilNames_call (front : String) (args : List String) :
    sigilNames (front ++ (commaSeparated args ++ ")")).data =
      sigilNames front.data ++ argumentNames args := by
  have hd : (front ++ (commaSeparated args ++ ")")).data =
      front.data ++ ((commaSeparated args).data ++ ')' :: []) := by
    simp only [String.data_append]
  rw [hd, sigilNames_append _ _ (commaSeparated_head args ')' [] rfl),
    sigilNames_commaSeparated args ')' [] rfl]
  simp [sigilNames]

theorem sigilNames_builderHeader (args : List String) :
    sigilNames (builderHeader args).data = "a_quant" :: argumentNames args := by
  have hd : (builderHeader args).data =
      "graph(%a_quant".data ++ ((commaSeparated args).data ++ ')' :: [':']) := by
    simp only [builderHeader, getExtraArgList_eq, String.data_append, List.append_assoc]
  rw [hd, sigilNames_append _ _ (commaSeparated_head args ')' [':'] rfl),
    sigilNames_commaSeparated args ')' [':'] rfl]
  have h1 : sigilNames "graph(%a_quant".data = ["a_quant"] := by decide!
  have h2 : sigilNames (')' :: [':']) = [] := by decide!
  rw [h1, h2]
  simp

theorem getInputTensorQParamOpFusionInfo_pattern (op : String) (args : List String) :
    (getInputTensorQParamOpFusionInfo op args).pattern =
      builderHeader args ++ builderCall op args ++
        quant_fusion_pattern_and_replacements.common_general_value_op := by
  simp only [getInputTensorQParamOpFusionInfo, builderHeader, builderCall, String.append_assoc]
  rfl

theorem getInputTensorQParamOpFusionInfo_replacement (op : String) (args : List String) :
    (getInputTensorQParamOpFusionInfo op args).replacement =
      getAtenOpPattern (builderHeader args) op (getExtraArgList args) := rfl

theorem getAtenOpPattern_eq (header op extra : String) :
    getAtenOpPattern header op extra =
      header ++ ("
          %r = " ++ (op ++ ("(%a_quant" ++ (extra ++ ")")))) ++ "
          return (%r) " := by
  simp only [getAtenOpPattern, String.append_assoc]
  rfl

/-- C13: for every operator name and every list of extra arguments,
`getInputTensorQParamOpFusionInfo` returns an entry named after the operator, whose
pattern and replacement start with the same header
`graph(%a_quant` ++ `getExtraArgList args` ++ `):`.  The pattern calls the operator on
`%a_dequant` and the replacement on `%a_quant`, both followed by the same text of extra
arguments, which names the same variables in the same order. -/
theorem getInputTensorQParamOpFusionInfo_same_header_and_arguments (op : String)
    (args : List String) :
    (getInputTensorQParamOpFusionInfo op args).quantized_op_name = op ∧
    (getInputTensorQParamOpFusionInfo op args).pattern =
      "graph(%a_quant" ++ getExtraArgList args ++ "):" ++
        ("
          %a_dequant = aten::dequantize(%a_quant)
          %r = " ++ (op ++ ("(%a_dequant" ++ (getExtraArgList args ++ ")")))) ++
        quant_fusion_pattern_and_replacements.common_general_value_op ∧
    (getInputTensorQParamOpFusionInfo op args).replacement =
      "graph(%a_quant" ++ getExtraArgList args ++ "):" ++
        ("
          %r = " ++ (op ++ ("(%a_quant" ++ (getExtraArgList args ++ ")")))) ++ "
          return (%r) " ∧
    sigilNames ("(%a_dequant" ++ (getExtraArgList args ++ ")")).data =
      "a_dequant" :: argumentNames args ∧
    sigilNames ("(%a_quant" ++ (getExtraArgList args ++ ")")).data =
      "a_quant" :: argumentNames args := by
  refine ⟨rfl, getInputTensorQParamOpFusionInfo_pattern op args, ?_, ?_, ?_⟩
  · rw [getInputTensorQParamOpFusionInfo_replacement, getAtenOpPattern_eq]
    rfl
  · rw [getExtraArgList_eq, sigilNames_call]
    have h1 : sigilNames "(%a_dequant".data = ["a_dequant"] := by decide!
    rw [h1]; rfl
  · rw [getExtraArgList_eq, sigilNames_call]
    have h1 : sigilNames "(%a_quant".data = ["a_quant"] := by decide!
    rw [h1]; rfl

theorem constantLiterals_append_newline (s t : String) (u : List Char)
    (ht : t.data = '\n' :: u) :
    constantLiterals (s ++ t) = constantLiterals s ++ constantLiterals ⟨u⟩ := by
  have h : ∀ x : String, nonBlankLines x = linesOf x.data := fun _ => rfl
  simp only [constantLiterals, h, String.data_append, ht, linesOf_append_newline,
    List.filterMap_append]

/-- C14: for every operator name and every list of extra arguments, the pattern built
by `getInputTensorQParamOpFusionInfo` ends with the text that takes the three output
quantization parameters from the input tensor: the lines that define `%r_scale` as
`aten::q_scale(%a_quant)`, `%r_zero_point` as `aten::q_zero_point(%a_quant)`,
`%r_dtype` as `prim::dtype(%a_quant)`, then `%r_quant` as `aten::quantize_per_tensor`
of `%r` and the three, and the return of `%r_quant`.  The free variables of the header
are `%a_quant` and the variables of the extra arguments, so none of the three
parameters is one of them unless the caller passed it. -/
theorem getInputTensorQParamOpFusionInfo_takes_qparams_from_input (op : String)
    (args : List String) :
    (getInputTensorQParamOpFusionInfo op args).pattern =
      (builderHeader args ++ builderCall op args) ++
        quant_fusion_pattern_and_replacements.common_general_value_op ∧
    readText (getInputTensorQParamOpFusionInfo op args).pattern =
      readText (builderHeader args ++ builderCall op args) ++
        [.assign ["r_scale"] "aten::q_scale" ["a_quant"],
         .assign ["r_zero_point"] "aten::q_zero_point" ["a_quant"],
         .assign ["r_dtype"] "prim::dtype" ["a_quant"],
         .assign ["r_quant"] "aten::quantize_per_tensor"
           ["r", "r_scale", "r_zero_point", "r_dtype"],
         .ret ["r_quant"]] ∧
    sigilNames (builderHeader args).data = "a_quant" :: argumentNames args ∧
    (∀ p ∈ ["r_scale", "r_zero_point", "r_dtype"],
      p ∈ sigilNames (builderHeader args).data → p ∈ argumentNames args) ∧
    sigilNames (builderHeader []).data = ["a_quant"] := by
  refine ⟨getInputTensorQParamOpFusionInfo_pattern op args, ?_,
    sigilNames_builderHeader args, ?_, by decide!⟩
  · rw [getInputTensorQParamOpFusionInfo_pattern,
      readText_append_newline _ _
        quant_fusion_pattern_and_replacements.common_general_value_op.data.tail (by decide!)]
    congr 1
  · intro p hp hmem
    rw [sigilNames_builderHeader, List.mem_cons] at hmem
    rcases hmem with h | h
    · subst h
      exact absurd hp (by decide)
    · exact h

/-- C15: for every operator name and every list of extra arguments, the pattern built
by `getFixedQParamOpFusionInfo` takes its quantization parameters from literal
constants chosen by the flag alone: scale 0.0078125, which is 1/128, and zero point
128 when the flag is true; scale 0.00390625, which is 1/256, and zero point 0 when it
is false; dtype 13 in both cases.  The two patterns differ only in these two literals,
and the replacement does not depend on the flag. -/
theorem getFixedQParamOpFusionInfo_constants_by_flag (op : String) (args : List String) :
    (getFixedQParamOpFusionInfo op args true).pattern =
      (builderHeader args ++ builderCall op args) ++
        (fixedQParamBeforeScale ++ "0.0078125" ++ fixedQParamBeforeZeroPoint ++ "128" ++
          fixedQParamAfterZeroPoint) ∧
    (getFixedQParamOpFusionInfo op args false).pattern =
      (builderHeader args ++ builderCall op args) ++
        (fixedQParamBeforeScale ++ "0.00390625" ++ fixedQParamBeforeZeroPoint ++ "0" ++
          fixedQParamAfterZeroPoint) ∧
    constantLiterals (getFixedQParamOpFusionInfo op args true).pattern =
      constantLiterals (builderHeader args ++ builderCall op args) ++
        [(["r_scale"], "0.0078125"), (["r_zero_point"], "128"), (["r_dtype"], "13")] ∧
    constantLiterals (getFixedQParamOpFusionInfo op args false).pattern =
      constantLiterals (builderHeader args ++ builderCall op args) ++
        [(["r_scale"], "0.00390625"), (["r_zero_point"], "0"), (["r_dtype"], "13")] ∧
    literalValue "0.0078125" = some (1 / 128) ∧
    literalValue "0.00390625" = some (1 / 256) ∧
    literalValue "128" = some 128 ∧ literalValue "0" = some 0 ∧ literalValue "13" = some 13 ∧
    (getFixedQParamOpFusionInfo op args true).replacement =
      (getFixedQParamOpFusionInfo op args false).replacement ∧
    (getFixedQParamOpFusionInfo op args true).quantized_op_name = op ∧
    (getFixedQParamOpFusionInfo op args false).quantized_op_name = op := by
  have hp : ∀ flag, (getFixedQParamOpFusionInfo op args flag).pattern =
      (builderHeader args ++ builderCall op args) ++
        (fixedQParamBeforeScale ++ (if flag then "0.0078125" else "0.00390625") ++
          fixedQParamBeforeZeroPoint ++ (if flag then "128" else "0") ++
          fixedQParamAfterZeroPoint) := by
    intro flag
    cases flag <;>
      simp only [getFixedQParamOpFusionInfo, builderHeader, builderCall, String.append_assoc] <;>
      rfl
  have ht : (fixedQParamBeforeScale ++ "0.0078125" ++ fixedQParamBeforeZeroPoint ++ "128" ++
      fixedQParamAfterZeroPoint).data = '\n' ::
        (fixedQParamBeforeScale ++ "0.0078125" ++ fixedQParamBeforeZeroPoint ++ "128" ++
          fixedQParamAfterZeroPoint).data.tail := by decide!
  have hf : (fixedQParamBeforeScale ++ "0.00390625" ++ fixedQParamBeforeZeroPoint ++ "0" ++
      fixedQParamAfterZeroPoint).data = '\n' ::
        (fixedQParamBeforeScale ++ "0.00390625" ++ fixedQParamBeforeZeroPoint ++ "0" ++
          fixedQParamAfterZeroPoint).data.tail := by decide!
  have d1 : readDecimal "0.0078125".data 0 none = some (78125, 7) := by decide!
  have d2 : readDecimal "0.00390625".data 0 none = some (390625, 8) := by decide!
  have d3 : readDecimal "128".data 0 none = some (128, 0) := by decide!
  have d4 : readDecimal "0".data 0 none = some (0, 0) := by decide!
  have d5 : readDecimal "13".data 0 none = some (13, 0) := by decide!
  refine ⟨hp true, hp false, ?_, ?_, ?_, ?_, ?_, ?_, ?_, rfl, rfl, rfl⟩
  · rw [hp true]
    simp only [if_true]
    rw [constantLiterals_append_newline _ _ _ ht]
    congr 1
  · rw [hp false]
    simp only [Bool.false_eq_true, if_false]
    rw [constantLiterals_append_newline _ _ _ hf]
    congr 1
  · simp only [literalValue, d1, Option.map_some']; norm_num
  · simp only [literalValue, d2, Option.map_some']; norm_num
  · simp only [literalValue, d3, Option.map_some']; norm_num
  · simp only [literalValue, d4, Option.map_some']; norm_num
  · simp only [literalValue, d5, Option.map_some']; norm_num

/-! ## Filters of the scalar-arithmetic entries -/

/-- Every entry of the static catalog has neither an add node nor `%b_scalar` in its
header, or carries the filter that tests what its pattern has: `add_filter` for an add
node alone, `add_scalar_filter` for both, `mul_scalar_filter` for `%b_scalar` alone.
The pattern names the variables that the filter looks up. -/
theorem filter_of_scalar_entry : ∀ e ∈ quant_fusion_pattern_and_replacements,
    (callsAdd e.pattern = false ∧ declaresBScalar e.pattern = false) ∨
    (e.filter = add_filter ∧ declaresBScalar e.pattern = false ∧
      "alpha" ∈ patternVariables e.pattern) ∨
    (e.filter = add_scalar_filter ∧ "alpha" ∈ patternVariables e.pattern ∧
      "b_scalar" ∈ patternVariables e.pattern) ∨
    (e.filter = mul_scalar_filter ∧ callsAdd e.pattern = false ∧
      "b_scalar" ∈ patternVariables e.pattern) := by
  intro e he
  simp only [quant_fusion_pattern_and_replacements, List.mem_cons, List.mem_nil_iff,
    or_false] at he
  repeat' (rcases he with he | he)
  all_goals first
    | exact Or.inl ⟨by decide!, by decide!⟩
    | exact Or.inr (Or.inl ⟨rfl, by decide!, by decide!⟩)
    | exact Or.inr (Or.inr (Or.inl ⟨rfl, by decide!, by decide!⟩))
    | exact Or.inr (Or.inr (Or.inr ⟨rfl, by decide!, by decide!⟩))

theorem alphaIsOne_eq_false {lit : Option IValue} (hl : lit ≠ some (.int 1)) :
    alphaIsOne lit = false := by
  cases ha : alphaIsOne lit with
  | false => rfl
  | true => exact absurd ((alphaIsOne_iff _).mp ha) hl

theorem add_filter_rejects {m : Match} {vmap : SymbolMap} {tv : Value}
    (h : lookupBound m vmap "alpha" = .ok tv) (hl : toIValue tv ≠ some (.int 1)) :
    add_filter m vmap = .ok false := by
  rw [add_filter_eq, h]
  simp [Except.map, alphaIsOne_eq_false hl]

theorem mul_scalar_filter_rejects {m : Match} {vmap : SymbolMap} {tv : Value}
    (h : lookupBound m vmap "b_scalar" = .ok tv)
    (ht : tv.type.isSubtypeOf NumberType.get = false) :
    mul_scalar_filter m vmap = .ok false := by
  rw [mul_scalar_filter_eq, h]
  simp [Except.map, ht]

theorem add_scalar_filter_rejects_alpha {m : Match} {vmap : SymbolMap} {tv bv : Value}
    (h : lookupBound m vmap "alpha" = .ok tv) (hb : lookupBound m vmap "b_scalar" = .ok bv)
    (hl : toIValue tv ≠ some (.int 1)) :
    add_scalar_filter m vmap = .ok false := by
  rw [add_scalar_filter_eq, h, hb]
  simp [Except.bind, Except.map, alphaIsOne_eq_false hl]

theorem add_scalar_filter_rejects_b_scalar {m : Match} {vmap : SymbolMap} {av tv : Value}
    (ha : lookupBound m vmap "alpha" = .ok av) (h : lookupBound m vmap "b_scalar" = .ok tv)
    (ht : tv.type.isSubtypeOf NumberType.get = false) :
    add_scalar_filter m vmap = .ok false := by
  rw [add_scalar_filter_eq, ha, h]
  simp [Except.bind, Except.map, ht]

/-- C16: in `quant_fusion_pattern_and_replacements`, on every match of the entry's own
pattern (the symbol map has every variable of the pattern text and the match binds
every pattern value of the symbol map), every entry whose pattern has an `aten::add`
or `aten::add_` node returns false when the value bound to `alpha` is not the constant
integer 1, and every entry whose header declares `%b_scalar` returns false when the
value bound to `b_scalar` is not of a numeric type.  None of these entries accepts
every match. -/
theorem scalar_arithmetic_entries_are_filtered (i : Nat) (e : QuantFusionInfo)
    (he : quant_fusion_pattern_and_replacements[i]? = some e) (m : Match) (vmap : SymbolMap)
    (hv : ∀ n ∈ patternVariables e.pattern, (unordered_map_at vmap n).toBool = true)
    (hm : ∀ q ∈ vmap, (unordered_map_at m.values_map q.2).toBool = true) :
    (callsAdd e.pattern = true → ∀ tv : Value,
      lookupBound m vmap "alpha" = .ok tv → toIValue tv ≠ some (.int 1) →
      e.filter m vmap = .ok false) ∧
    (declaresBScalar e.pattern = true → ∀ tv : Value,
      lookupBound m vmap "b_scalar" = .ok tv → tv.type.isSubtypeOf NumberType.get = false →
      e.filter m vmap = .ok false) ∧
    (callsAdd e.pattern = true ∨ declaresBScalar e.pattern = true →
      ¬ ∀ (m2 : Match) (vmap2 : SymbolMap), e.filter m2 vmap2 = .ok true) := by
  rcases filter_of_scalar_entry e (List.getElem?_mem he) with
    ⟨h1, h2⟩ | ⟨hf, h2, ha⟩ | ⟨hf, ha, hb⟩ | ⟨hf, h1, hb⟩
  · refine ⟨fun hc => ?_, fun hc => ?_, fun hc => ?_⟩
    · rw [h1] at hc; cases hc
    · rw [h2] at hc; cases hc
    · rcases hc with hc | hc
      · rw [h1] at hc; cases hc
      · rw [h2] at hc; cases hc
  · refine ⟨fun _ tv hl hne => ?_, fun hc => ?_, fun _ hall => ?_⟩
    · rw [hf]; exact add_filter_rejects hl hne
    · rw [h2] at hc; cases hc
    · have h0 := hall ⟨[]⟩ []
      rw [hf] at h0; cases h0
  · obtain ⟨av, hav⟩ := lookupBound_of_present (hv _ ha) hm
    obtain ⟨bv, hbv⟩ := lookupBound_of_present (hv _ hb) hm
    refine ⟨fun _ tv hl hne => ?_, fun _ tv hl hne => ?_, fun _ hall => ?_⟩
    · rw [hf]; exact add_scalar_filter_rejects_alpha hl hbv hne
    · rw [hf]; exact add_scalar_filter_rejects_b_scalar hav hl hne
    · have h0 := hall ⟨[]⟩ []
      rw [hf] at h0; cases h0
  · refine ⟨fun hc => ?_, fun _ tv hl hne => ?_, fun _ hall => ?_⟩
    · rw [h1] at hc; cases hc
    · rw [hf]; exact mul_scalar_filter_rejects hl hne
    · have h0 := hall ⟨[]⟩ []
      rw [hf] at h0; cases h0

/-- Witness of C16 on the entry `quantized::add_scalar` at position 18 and a match of
its pattern that binds `alpha` to the constant 2 and `b_scalar` to a float. -/
theorem scalar_arithmetic_entries_are_filtered_witness :
    quant_fusion_pattern_and_replacements[18]? = some
      { quantized_op_name := "quantized::add_scalar",
        pattern := quant_fusion_pattern_and_replacements.add_scalar,
        replacement := quant_fusion_pattern_and_replacements.quantized_add_scalar,
        filter := add_scalar_filter } ∧
    callsAdd quant_fusion_pattern_and_replacements.add_scalar = true ∧
    lookupBound add_scalar_match_alpha_two add_scalar_symbols "alpha" =
      .ok ⟨32, .int, some (.int 2)⟩ ∧
    add_scalar_filter add_scalar_match_alpha_two add_scalar_symbols = .ok false :=
  ⟨rfl, by decide!, rfl,
    (scalar_arithmetic_entries_are_filtered 18
      { quantized_op_name := "quantized::add_scalar",
        pattern := quant_fusion_pattern_and_replacements.add_scalar,
        replacement := quant_fusion_pattern_and_replacements.quantized_add_scalar,
        filter := add_scalar_filter } rfl add_scalar_match_alpha_two add_scalar_symbols
      (by decide!) (by decide!)).1 (by decide!) ⟨32, .int, some (.int 2)⟩ rfl (by decide)⟩

/-! ## Order of the relu entries and distinct patterns -/

/-- C17, counterexample: the pattern of the entry at position 1,
`quantized::conv1d_relu`, is the operator chain of the entry at position 0,
`quantized::conv1d`, followed by `aten::relu`, and it comes after that entry, not
before it. -/
theorem conv1d_entry_precedes_conv1d_relu_entry :
    (quant_fusion_pattern_and_replacements[0]?.map
        (fun e => (e.quantized_op_name, calledOperators e.pattern)) =
      some ("quantized::conv1d",
        ["aten::dequantize", "quantized::conv1d_unpack", "aten::dequantize", "aten::conv1d",
          "aten::quantize_per_tensor"])) ∧
    (quant_fusion_pattern_and_replacements[1]?.map
        (fun e => (e.quantized_op_name, calledOperators e.pattern)) =
      some ("quantized::conv1d_relu",
        ["aten::dequantize", "quantized::conv1d_unpack", "aten::dequantize", "aten::conv1d",
          "aten::relu", "aten::quantize_per_tensor"])) ∧
    ¬ (∀ p ∈ quant_fusion_pattern_and_replacements.enum,
        ∀ q ∈ quant_fusion_pattern_and_replacements.enum,
          isReluVariantOf p.2 q.2 = true → p.1 < q.1) := by
  refine ⟨by decide!, by decide!, by decide!⟩

/-- C17, amended: in `quant_fusion_pattern_and_replacements` the four
`mul_scalar_relu` and `mul_scalar_relu_out` entries precede both `mul_scalar` entries,
the four `mul_relu` entries precede both `mul` entries and the four `add_relu` entries
precede both `add` entries.  Wherever the pattern of an entry is the operator chain of
another entry followed by a relu, the relu entry comes first, except for `conv1d`,
`conv2d`, `conv3d` and `batch_norm2d`, whose entry comes before its relu entries. -/
theorem relu_entries_precede_plain_arithmetic_entries :
    (∀ p ∈ quant_fusion_pattern_and_replacements.enum,
      ∀ q ∈ quant_fusion_pattern_and_replacements.enum,
        (p.2.quantized_op_name ∈ ["quantized::mul_scalar_relu", "quantized::mul_scalar_relu_out"] →
          q.2.quantized_op_name = "quantized::mul_scalar" → p.1 < q.1) ∧
        (p.2.quantized_op_name = "quantized::mul_relu" →
          q.2.quantized_op_name = "quantized::mul" → p.1 < q.1) ∧
        (p.2.quantized_op_name = "quantized::add_relu" →
          q.2.quantized_op_name = "quantized::add" → p.1 < q.1)) ∧
    (quant_fusion_pattern_and_replacements.map (·.quantized_op_name)).count
        "quantized::mul_scalar_relu" +
      (quant_fusion_pattern_and_replacements.map (·.quantized_op_name)).count
        "quantized::mul_scalar_relu_out" = 4 ∧
    (quant_fusion_pattern_and_replacements.map (·.quantized_op_name)).count
      "quantized::mul_scalar" = 2 ∧
    (quant_fusion_pattern_and_replacements.map (·.quantized_op_name)).count
      "quantized::mul_relu" = 4 ∧
    (quant_fusion_pattern_and_replacements.map (·.quantized_op_name)).count
      "quantized::mul" = 2 ∧
    (quant_fusion_pattern_and_replacements.map (·.quantized_op_name)).count
      "quantized::add_relu" = 4 ∧
    (quant_fusion_pattern_and_replacements.map (·.quantized_op_name)).count
      "quantized::add" = 2 ∧
    (∀ p ∈ quant_fusion_pattern_and_replacements.enum,
      ∀ q ∈ quant_fusion_pattern_and_replacements.enum,
        isReluVariantOf p.2 q.2 = true →
          (q.2.quantized_op_name ∈ ["quantized::conv1d", "quantized::conv2d",
              "quantized::conv3d", "quantized::batch_norm2d"] → q.1 < p.1) ∧
          (q.2.quantized_op_name ∉ ["quantized::conv1d", "quantized::conv2d",
              "quantized::conv3d", "quantized::batch_norm2d"] → p.1 < q.1)) := by
  refine ⟨by decide!, by decide!, by decide!, by decide!, by decide!, by decide!, by decide!,
    by decide!⟩

theorem index_eq_of_nodup_map {α β : Type} (l : List α) (f : α → β) (h : (l.map f).Nodup)
    {i j : Nat} {a b : α} (hi : l[i]? = some a) (hj : l[j]? = some b) (hf : f a = f b) :
    i = j := by
  have hi2 : (l.map f)[i]? = some (f a) := by simp [List.getElem?_map, hi]
  have hj2 : (l.map f)[j]? = some (f b) := by simp [List.getElem?_map, hj]
  have hil : i < (l.map f).length := by
    by_contra hc
    rw [List.getElem?_eq_none (by omega)] at hi2
    cases hi2
  have hjl : j < (l.map f).length := by
    by_contra hc
    rw [List.getElem?_eq_none (by omega)] at hj2
    cases hj2
  rcases Nat.lt_trichotomy i j with hij | hij | hij
  · exact absurd (by rw [hi2, hj2, hf]) (List.nodup_iff_getElem?_ne_getElem?.mp h i j hij hjl)
  · exact hij
  · exact absurd (by rw [hi2, hj2, hf]) (List.nodup_iff_getElem?_ne_getElem?.mp h j i hij hil)

/-- C18: no two entries of `quant_fusion_pattern_and_replacements` have the same
pattern text: the 67 pattern strings are pairwise distinct, so two positions with the
same pattern are the same position. -/
theorem static_patterns_pairwise_distinct :
    (quant_fusion_pattern_and_replacements.map (·.pattern)).length = 67 ∧
    (quant_fusion_pattern_and_replacements.map (·.pattern)).Nodup ∧
    (∀ (i j : Nat) (a b : QuantFusionInfo),
      quant_fusion_pattern_and_replacements[i]? = some a →
      quant_fusion_pattern_and_replacements[j]? = some b →
      a.pattern = b.pattern → i = j) := by
  have hn : (quant_fusion_pattern_and_replacements.map (·.pattern)).Nodup := by decide!
  exact ⟨by decide!, hn, fun i j a b hi hj hp => index_eq_of_nodup_map _ _ hn hi hj hp⟩

end torch.jit
